import Mathlib

/-!
# ThingsBoard.h : telemetry records and the HTTP / HTTPS clients

A shallow embedding of `src/ThingsBoard.h`.

* C pointers that the code tests against null (`m_key`, `m_Token`, `m_Socket`, `json`,
  `m_value.str`) are `Option`s; `none` is the null pointer.
* A C string is a `String`, one `Char` per byte, so `strlen` is `String.length`.
* `int` is an `Int` in the range of 32 bits, `uint32_t` a `Nat` below `2 ^ 32`; the
  conversions that the constructors perform are written out with `%`.
* The JSON library and the HTTP transport are not part of the repository.  The client
  code is embedded over an arbitrary JSON library (`JsonLibrary`) and an arbitrary
  transport (a function from the request to the status code of the response).
* A send call returns an `Outcome`: the boolean result, the messages handed to the
  logger and the requests handed to the transport, in order.
-/

set_option autoImplicit false

/-! ## Constants -/

/-- The size in bytes of the stack buffer that receives the JSON text. -/
def TB_PAYLOAD_SIZE : Nat := 64

/-- The number of fields a batch may carry. -/
def TB_FIELDS_AMT : Nat := 8

/-- The status code that counts as success. -/
def OK_SUCCESS : Int := 200

/-! ## Machine integers -/

/-- Conversion of an integral value to `int` (32 bits, two's complement). -/
def toInt32 (v : Int) : Int := (v + 2147483648) % 4294967296 - 2147483648

/-- A `float`, kept as its 32 bit pattern; no arithmetic is done on it. -/
structure CFloat where
  bits : Nat
deriving DecidableEq, Repr

/-! ## The JSON library, as far as the code uses it -/

/-- The typed values that the code hands to the JSON library: one constructor per
overload of `set` and of the member assignment that the code selects. -/
inductive JsonValue where
  | boolean (b : Bool)
  | integer (i : Int)
  | uinteger (u : Nat)
  | real (f : CFloat)
  | str (s : Option String)
deriving DecidableEq, Repr

/-- The operations of the JSON library that `ThingsBoard.h` calls, on a container type
`Doc` (a `JsonVariant` bound to its `StaticJsonDocument`).

* `toVariant n` is `StaticJsonDocument<JSON_OBJECT_SIZE(n)> d; d.to<JsonVariant>()`.
* `setMember o k v` is `o[k].set(v)`: whether the write succeeded, and the container
  after it.
* `set o v` is `o.set(v)`, likewise.
* `render o` is the complete JSON text of the container. -/
structure JsonLibrary (Doc : Type) where
  toVariant : Nat → Doc
  setMember : Doc → String → JsonValue → Bool × Doc
  set : Doc → JsonValue → Bool × Doc
  render : Doc → String

section Json

variable {Doc : Type}

/-- The capacity argument of the document, counted in object members. -/
def JSON_OBJECT_SIZE (n : Nat) : Nat := n

/-- The assignment `jsonObj[key] = value`: the member write, its result dropped (the
assignment operator of the library hands back the member, not a success flag). -/
def JsonLibrary.assignMember (J : JsonLibrary Doc) (jsonObj : Doc) (key : String)
    (value : JsonValue) : Doc :=
  (J.setMember jsonObj key value).2

/-- Modelled from the spec: serialized-size measurement of the JSON document abstraction
(the library itself is not part of the repository). `measureJson` is the number of bytes
of the complete JSON text, the terminator not counted. -/
def measureJson (J : JsonLibrary Doc) (doc : Doc) : Nat :=
  (J.render doc).length

/-- Modelled from the spec: fixed-buffer text rendering of the JSON document abstraction
(the library itself is not part of the repository). `serializeJson doc buffer size` leaves
in the buffer the first `size - 1` bytes of the JSON text, followed by a terminator; the
result is the C string found in the buffer afterwards. -/
def serializeJson (J : JsonLibrary Doc) (doc : Doc) (size : Nat) : String :=
  String.mk ((J.render doc).data.take (size - 1))

end Json

/-! ## Telemetry records -/

/-- Data type inside a container. -/
inductive dataType where
  | TYPE_NONE
  | TYPE_BOOL
  | TYPE_UINT
  | TYPE_INT
  | TYPE_REAL
  | TYPE_STR
deriving DecidableEq, Repr

/-- Data container: the union `data`, holding the member written last; `zero` is the
value-initialised union of `m_value()`. -/
inductive data where
  | zero
  | str (s : Option String)
  | boolean (b : Bool)
  | integer (i : Int)
  | uinteger (u : Nat)
  | real (f : CFloat)
deriving DecidableEq, Repr

namespace data

/-- Read of the member `str`. The class reads a member only under the tag its writers
set together with it; the other cases give the value of the zeroed union. -/
def asStr : data → Option String
  | .str s => s
  | _ => none

/-- Read of the member `boolean`. -/
def asBoolean : data → Bool
  | .boolean b => b
  | _ => false

/-- Read of the member `integer`. -/
def asInteger : data → Int
  | .integer i => i
  | _ => 0

/-- Read of the member `uinteger`. -/
def asUinteger : data → Nat
  | .uinteger u => u
  | _ => 0

/-- Read of the member `real`. -/
def asReal : data → CFloat
  | .real f => f
  | _ => ⟨0⟩

end data

/-- Telemetry record class, allows to store different data using common interface. -/
structure Telemetry where
  m_type : dataType
  m_key : Option String
  m_value : data
deriving DecidableEq, Repr

/-- The alias `using Attribute = Telemetry`. -/
abbrev Attribute := Telemetry

namespace Telemetry

open dataType

/-- The default constructor `Telemetry()`. -/
def empty : Telemetry :=
  { m_type := TYPE_NONE, m_key := none, m_value := data.zero }

/-- The template constructor `Telemetry(const char *key, T val)`: it is selected for
every argument type `T` that is not exactly `bool`, `float` or `const char *`, and
stores `val`, converted to `int`, under `TYPE_INT`. -/
def ofIntegral (key : Option String) (val : Int) : Telemetry :=
  { m_type := TYPE_INT, m_key := key, m_value := data.integer (toInt32 val) }

/-- Constructs telemetry record from boolean value. -/
def ofBool (key : Option String) (val : Bool) : Telemetry :=
  { m_type := TYPE_BOOL, m_key := key, m_value := data.boolean val }

/-- Constructs telemetry record from float value. -/
def ofFloat (key : Option String) (val : CFloat) : Telemetry :=
  { m_type := TYPE_REAL, m_key := key, m_value := data.real val }

/-- Constructs telemetry record from string value. -/
def ofStr (key : Option String) (val : Option String) : Telemetry :=
  { m_type := TYPE_STR, m_key := key, m_value := data.str val }

/-- The overload `setValue(int val)`. -/
def setValueInt (t : Telemetry) (val : Int) : Telemetry :=
  { t with m_type := TYPE_INT, m_value := data.integer (toInt32 val) }

/-- The overload `setValue(uint32_t val)`. -/
def setValueUInt (t : Telemetry) (val : Nat) : Telemetry :=
  { t with m_type := TYPE_UINT, m_value := data.uinteger (val % 4294967296) }

/-- The overload `setValue(bool val)`. -/
def setValueBool (t : Telemetry) (val : Bool) : Telemetry :=
  { t with m_type := TYPE_BOOL, m_value := data.boolean val }

/-- The overload `setValue(float val)`. -/
def setValueFloat (t : Telemetry) (val : CFloat) : Telemetry :=
  { t with m_type := TYPE_REAL, m_value := data.real val }

/-- The overload `setValue(const char *val)`. -/
def setValueStr (t : Telemetry) (val : Option String) : Telemetry :=
  { t with m_type := TYPE_STR, m_value := data.str val }

variable {Doc : Type}

/-- Serializes key-value pair in a generic way. The result is the returned flag and the
container after the call. -/
def serializeKeyval (J : JsonLibrary Doc) (t : Telemetry) (jsonObj : Doc) : Bool × Doc :=
  match t.m_key with
  | some m_key =>
    match t.m_type with
    | TYPE_BOOL => (true, J.assignMember jsonObj m_key (.boolean t.m_value.asBoolean))
    | TYPE_INT => (true, J.assignMember jsonObj m_key (.integer t.m_value.asInteger))
    | TYPE_UINT => (true, J.assignMember jsonObj m_key (.uinteger t.m_value.asUinteger))
    | TYPE_REAL => (true, J.assignMember jsonObj m_key (.real t.m_value.asReal))
    | TYPE_STR => (true, J.assignMember jsonObj m_key (.str t.m_value.asStr))
    | TYPE_NONE => (true, jsonObj)
  | none =>
    match t.m_type with
    | TYPE_BOOL => J.set jsonObj (.boolean t.m_value.asBoolean)
    | TYPE_INT => J.set jsonObj (.integer t.m_value.asInteger)
    | TYPE_UINT => J.set jsonObj (.uinteger t.m_value.asUinteger)
    | TYPE_REAL => J.set jsonObj (.real t.m_value.asReal)
    | TYPE_STR => J.set jsonObj (.str t.m_value.asStr)
    | TYPE_NONE => (true, jsonObj)

end Telemetry

/-! ## Requests and outcomes -/

/-- A socket handle (`TCPSocket` or `TLSSocket`), identified by a number. -/
structure Socket where
  id : Nat
deriving DecidableEq, Repr

/-- A logger object (`ThingsBoardLogger`), identified by a number. -/
structure ThingsBoardLogger where
  id : Nat
deriving DecidableEq, Repr

/-- The request method. -/
inductive HttpMethod where
  | HTTP_POST
deriving DecidableEq, Repr

/-- What one `request->send(json, strlen(json))` hands to the transport: the socket and
the URL the request was constructed with, the headers set on it, and the body. -/
structure HttpRequest where
  socket : Option Socket
  method : HttpMethod
  url : String
  headers : List (String × String)
  body : String
deriving DecidableEq, Repr

/-- The transport: the status code of the response to a request. -/
abbrev Transport := HttpRequest → Int

/-- The observable result of a send call. -/
structure Outcome where
  ret : Bool
  logged : List String
  sent : List HttpRequest
deriving DecidableEq, Repr

/-- The function `std::to_string(int)`: decimal digits, with a minus sign when negative. -/
def to_string (n : Int) : String :=
  match n with
  | Int.ofNat m => Nat.repr m
  | Int.negSucc m => "-" ++ Nat.repr (m + 1)

/-- The loop `for (i = 0; i < data_count; ++i) if (!data[i].serializeKeyval(object)) ...`
of `sendDataArray`, with `n` iterations left and `i` the index of the next record. The
result is `false` and the container at the first failing record, or `true` and the
container after the last record. -/
def serializeRecords {Doc : Type} (J : JsonLibrary Doc) (data : Nat → Telemetry) :
    Nat → Nat → Doc → Bool × Doc
  | 0, _, object => (true, object)
  | n + 1, i, object =>
    match (data i).serializeKeyval J object with
    | (false, object) => (false, object)
    | (true, object) => serializeRecords J data n (i + 1) object

/-! ## ThingsBoard HTTP client class -/

/-- ThingsBoard HTTP client class: the fields of `ThingsBoardHttpSized`. `m_Host` is
turned into a `std::string` without a test, so it is a string. -/
structure ThingsBoardHttpSized where
  m_Socket : Option Socket
  m_Token : Option String
  m_Host : String
  m_Port : Int
  m_Logger : ThingsBoardLogger
deriving DecidableEq, Repr

namespace ThingsBoardHttpSized

variable {Doc : Type}

/-- The method `begin(socket, access_token, host, port, logger)`. -/
def begin (_c : ThingsBoardHttpSized) (socket : Option Socket) (access_token : Option String)
    (host : String) (port : Int) (logger : ThingsBoardLogger) : ThingsBoardHttpSized :=
  { m_Socket := socket, m_Token := access_token, m_Host := host, m_Port := port,
    m_Logger := logger }

/-- Sends custom JSON telemetry or attribute string to the ThingsBoard, using HTTP. -/
def sendTelemetryOrAttributeJson (transport : Transport) (c : ThingsBoardHttpSized)
    (json : Option String) (telemetry : Bool) : Outcome :=
  match json, c.m_Token with
  | some json, some m_Token =>
    let path := "http://" ++ c.m_Host ++ ":" ++ to_string c.m_Port ++ "/api/v1/" ++ m_Token
      ++ (if telemetry then "/telemetry" else "/attributes")
    let request : HttpRequest :=
      { socket := c.m_Socket, method := HttpMethod.HTTP_POST, url := path,
        headers := [("Content-Type", "application/json")], body := json }
    let status := transport request
    { ret := decide (status = OK_SUCCESS), logged := [], sent := [request] }
  | _, _ => { ret := false, logged := [], sent := [] }

/-- Sends array of attributes or telemetry to ThingsBoard. -/
def sendDataArray (J : JsonLibrary Doc) (transport : Transport) (c : ThingsBoardHttpSized)
    (data : Nat → Telemetry) (data_count : Nat) (telemetry : Bool) : Outcome :=
  if TB_FIELDS_AMT < data_count then
    { ret := false, logged := ["too much JSON fields passed"], sent := [] }
  else
    let object := J.toVariant (JSON_OBJECT_SIZE TB_FIELDS_AMT)
    match serializeRecords J data data_count 0 object with
    | (false, _) => { ret := false, logged := ["unable to serialize data"], sent := [] }
    | (true, object) =>
      if measureJson J object > TB_PAYLOAD_SIZE - 1 then
        { ret := false, logged := ["too small buffer for JSON data"], sent := [] }
      else
        let payload := serializeJson J object TB_PAYLOAD_SIZE
        c.sendTelemetryOrAttributeJson transport (some payload) telemetry

/-- Sends single key-value in a generic way. The record `t` is the `Telemetry t(key, value)`
that the template builds from its arguments. -/
def sendKeyval (J : JsonLibrary Doc) (transport : Transport) (c : ThingsBoardHttpSized)
    (t : Telemetry) (telemetry : Bool) : Outcome :=
  let object := J.toVariant (JSON_OBJECT_SIZE 1)
  match t.serializeKeyval J object with
  | (false, _) => { ret := false, logged := ["unable to serialize data"], sent := [] }
  | (true, object) =>
    if measureJson J object > TB_PAYLOAD_SIZE - 1 then
      { ret := false, logged := ["too small buffer for JSON data"], sent := [] }
    else
      let payload := serializeJson J object TB_PAYLOAD_SIZE
      c.sendTelemetryOrAttributeJson transport (some payload) telemetry

/-- Sends integer telemetry data to the ThingsBoard, returns true on success. -/
def sendTelemetryInt (J : JsonLibrary Doc) (transport : Transport) (c : ThingsBoardHttpSized)
    (key : Option String) (value : Int) : Outcome :=
  c.sendKeyval J transport (Telemetry.ofIntegral key value) true

/-- Sends boolean telemetry data to the ThingsBoard, returns true on success. -/
def sendTelemetryBool (J : JsonLibrary Doc) (transport : Transport) (c : ThingsBoardHttpSized)
    (key : Option String) (value : Bool) : Outcome :=
  c.sendKeyval J transport (Telemetry.ofBool key value) true

/-- Sends float telemetry data to the ThingsBoard, returns true on success. -/
def sendTelemetryFloat (J : JsonLibrary Doc) (transport : Transport) (c : ThingsBoardHttpSized)
    (key : Option String) (value : CFloat) : Outcome :=
  c.sendKeyval J transport (Telemetry.ofFloat key value) true

/-- Sends string telemetry data to the ThingsBoard, returns true on success. -/
def sendTelemetryString (J : JsonLibrary Doc) (transport : Transport) (c : ThingsBoardHttpSized)
    (key : Option String) (value : Option String) : Outcome :=
  c.sendKeyval J transport (Telemetry.ofStr key value) true

/-- Sends aggregated telemetry to the ThingsBoard. -/
def sendTelemetry (J : JsonLibrary Doc) (transport : Transport) (c : ThingsBoardHttpSized)
    (data : Nat → Telemetry) (data_count : Nat) : Outcome :=
  c.sendDataArray J transport data data_count true

/-- Sends integer attribute with given name and value. -/
def sendAttributeInt (J : JsonLibrary Doc) (transport : Transport) (c : ThingsBoardHttpSized)
    (attrName : Option String) (value : Int) : Outcome :=
  c.sendKeyval J transport (Telemetry.ofIntegral attrName value) false

/-- Sends boolean attribute with given name and value. -/
def sendAttributeBool (J : JsonLibrary Doc) (transport : Transport) (c : ThingsBoardHttpSized)
    (attrName : Option String) (value : Bool) : Outcome :=
  c.sendKeyval J transport (Telemetry.ofBool attrName value) false

/-- Sends float attribute with given name and value. -/
def sendAttributeFloat (J : JsonLibrary Doc) (transport : Transport) (c : ThingsBoardHttpSized)
    (attrName : Option String) (value : CFloat) : Outcome :=
  c.sendKeyval J transport (Telemetry.ofFloat attrName value) false

/-- Sends string attribute with given name and value. -/
def sendAttributeString (J : JsonLibrary Doc) (transport : Transport) (c : ThingsBoardHttpSized)
    (attrName : Option String) (value : Option String) : Outcome :=
  c.sendKeyval J transport (Telemetry.ofStr attrName value) false

/-- Sends aggregated attributes to the ThingsBoard. -/
def sendAttributes (J : JsonLibrary Doc) (transport : Transport) (c : ThingsBoardHttpSized)
    (data : Nat → Attribute) (data_count : Nat) : Outcome :=
  c.sendDataArray J transport data data_count false

end ThingsBoardHttpSized

/-! ## ThingsBoard HTTPS client class -/

/-- ThingsBoard HTTPS client class: the fields of `ThingsBoardHttpsSized`. -/
structure ThingsBoardHttpsSized where
  m_Socket : Option Socket
  m_Token : Option String
  m_Host : String
  m_ssl_ca_pem : Option String
  m_Port : Int
  m_Logger : ThingsBoardLogger
deriving DecidableEq, Repr

namespace ThingsBoardHttpsSized

variable {Doc : Type}

/-- The method `begin(socket, access_token, host, port, logger)`. -/
def begin (c : ThingsBoardHttpsSized) (socket : Option Socket) (access_token : Option String)
    (host : String) (port : Int) (logger : ThingsBoardLogger) : ThingsBoardHttpsSized :=
  { c with m_Socket := socket, m_Token := access_token, m_Host := host, m_Port := port,
           m_Logger := logger }

/-- The method `begin(access_token, host, port, logger)`, without a socket. -/
def beginNoSocket (c : ThingsBoardHttpsSized) (access_token : Option String)
    (host : String) (port : Int) (logger : ThingsBoardLogger) : ThingsBoardHttpsSized :=
  { c with m_Socket := none, m_Token := access_token, m_Host := host, m_Port := port,
           m_Logger := logger }

/-- The method `setSocket(socket)`. -/
def setSocket (c : ThingsBoardHttpsSized) (socket : Option Socket) : ThingsBoardHttpsSized :=
  { c with m_Socket := socket }

/-- Sends custom JSON telemetry or attribute string to the ThingsBoard, using HTTP. -/
def sendTelemetryOrAttributeJson (transport : Transport) (c : ThingsBoardHttpsSized)
    (json : Option String) (telemetry : Bool) : Outcome :=
  match json, c.m_Token with
  | some json, some m_Token =>
    match c.m_Socket with
    | none => { ret := false, logged := [], sent := [] }
    | some m_Socket =>
      let path := "https://" ++ c.m_Host ++ ":" ++ to_string c.m_Port ++ "/api/v1/" ++ m_Token
        ++ (if telemetry then "/telemetry" else "/attributes")
      let request : HttpRequest :=
        { socket := some m_Socket, method := HttpMethod.HTTP_POST, url := path,
          headers := [("Content-Type", "application/json")], body := json }
      let status := transport request
      { ret := decide (status = OK_SUCCESS), logged := [], sent := [request] }
  | _, _ => { ret := false, logged := [], sent := [] }

/-- Sends array of attributes or telemetry to ThingsBoard. -/
def sendDataArray (J : JsonLibrary Doc) (transport : Transport) (c : ThingsBoardHttpsSized)
    (data : Nat → Telemetry) (data_count : Nat) (telemetry : Bool) : Outcome :=
  if TB_FIELDS_AMT < data_count then
    { ret := false, logged := ["too much JSON fields passed"], sent := [] }
  else
    let object := J.toVariant (JSON_OBJECT_SIZE TB_FIELDS_AMT)
    match serializeRecords J data data_count 0 object with
    | (false, _) => { ret := false, logged := ["unable to serialize data"], sent := [] }
    | (true, object) =>
      if measureJson J object > TB_PAYLOAD_SIZE - 1 then
        { ret := false, logged := ["too small buffer for JSON data"], sent := [] }
      else
        let payload := serializeJson J object TB_PAYLOAD_SIZE
        c.sendTelemetryOrAttributeJson transport (some payload) telemetry

/-- Sends single key-value in a generic way. The record `t` is the `Telemetry t(key, value)`
that the template builds from its arguments. -/
def sendKeyval (J : JsonLibrary Doc) (transport : Transport) (c : ThingsBoardHttpsSized)
    (t : Telemetry) (telemetry : Bool) : Outcome :=
  let object := J.toVariant (JSON_OBJECT_SIZE 1)
  match t.serializeKeyval J object with
  | (false, _) => { ret := false, logged := ["unable to serialize data"], sent := [] }
  | (true, object) =>
    if measureJson J object > TB_PAYLOAD_SIZE - 1 then
      { ret := false, logged := ["too small buffer for JSON data"], sent := [] }
    else
      let payload := serializeJson J object TB_PAYLOAD_SIZE
      c.sendTelemetryOrAttributeJson transport (some payload) telemetry

/-- Sends integer telemetry data to the ThingsBoard, returns true on success. -/
def sendTelemetryInt (J : JsonLibrary Doc) (transport : Transport) (c : ThingsBoardHttpsSized)
    (key : Option String) (value : Int) : Outcome :=
  c.sendKeyval J transport (Telemetry.ofIntegral key value) true

/-- Sends boolean telemetry data to the ThingsBoard, returns true on success. -/
def sendTelemetryBool (J : JsonLibrary Doc) (transport : Transport) (c : ThingsBoardHttpsSized)
    (key : Option String) (value : Bool) : Outcome :=
  c.sendKeyval J transport (Telemetry.ofBool key value) true

/-- Sends float telemetry data to the ThingsBoard, returns true on success. -/
def sendTelemetryFloat (J : JsonLibrary Doc) (transport : Transport) (c : ThingsBoardHttpsSized)
    (key : Option String) (value : CFloat) : Outcome :=
  c.sendKeyval J transport (Telemetry.ofFloat key value) true

/-- Sends string telemetry data to the ThingsBoard, returns true on success. -/
def sendTelemetryString (J : JsonLibrary Doc) (transport : Transport) (c : ThingsBoardHttpsSized)
    (key : Option String) (value : Option String) : Outcome :=
  c.sendKeyval J transport (Telemetry.ofStr key value) true

/-- Sends aggregated telemetry to the ThingsBoard. -/
def sendTelemetry (J : JsonLibrary Doc) (transport : Transport) (c : ThingsBoardHttpsSized)
    (data : Nat → Telemetry) (data_count : Nat) : Outcome :=
  c.sendDataArray J transport data data_count true

/-- Sends integer attribute with given name and value. -/
def sendAttributeInt (J : JsonLibrary Doc) (transport : Transport) (c : ThingsBoardHttpsSized)
    (attrName : Option String) (value : Int) : Outcome :=
  c.sendKeyval J transport (Telemetry.ofIntegral attrName value) false

/-- Sends boolean attribute with given name and value. -/
def sendAttributeBool (J : JsonLibrary Doc) (transport : Transport) (c : ThingsBoardHttpsSized)
    (attrName : Option String) (value : Bool) : Outcome :=
  c.sendKeyval J transport (Telemetry.ofBool attrName value) false

/-- Sends float attribute with given name and value. -/
def sendAttributeFloat (J : JsonLibrary Doc) (transport : Transport) (c : ThingsBoardHttpsSized)
    (attrName : Option String) (value : CFloat) : Outcome :=
  c.sendKeyval J transport (Telemetry.ofFloat attrName value) false

/-- Sends string attribute with given name and value. -/
def sendAttributeString (J : JsonLibrary Doc) (transport : Transport) (c : ThingsBoardHttpsSized)
    (attrName : Option String) (value : Option String) : Outcome :=
  c.sendKeyval J transport (Telemetry.ofStr attrName value) false

/-- Sends aggregated attributes to the ThingsBoard. -/
def sendAttributes (J : JsonLibrary Doc) (transport : Transport) (c : ThingsBoardHttpsSized)
    (data : Nat → Attribute) (data_count : Nat) : Outcome :=
  c.sendDataArray J transport data data_count false

end ThingsBoardHttpsSized

/-! ## Every public send method, as one type -/

/-- The public send methods of a client with their arguments, so that a statement about
every send call is a statement about every `SendCall`. -/
inductive SendCall where
  | telemetryInt (key : Option String) (value : Int)
  | telemetryBool (key : Option String) (value : Bool)
  | telemetryFloat (key : Option String) (value : CFloat)
  | telemetryString (key : Option String) (value : Option String)
  | telemetry (data : Nat → Telemetry) (data_count : Nat)
  | attributeInt (attrName : Option String) (value : Int)
  | attributeBool (attrName : Option String) (value : Bool)
  | attributeFloat (attrName : Option String) (value : CFloat)
  | attributeString (attrName : Option String) (value : Option String)
  | attributes (data : Nat → Attribute) (data_count : Nat)

namespace SendCall

/-- Whether the method belongs to the telemetry API (`sendTelemetry...`). -/
def isTelemetry : SendCall → Bool
  | telemetryInt _ _ => true
  | telemetryBool _ _ => true
  | telemetryFloat _ _ => true
  | telemetryString _ _ => true
  | telemetry _ _ => true
  | _ => false

/-- The method of the attribute API with the same arguments. -/
def toAttribute : SendCall → SendCall
  | telemetryInt k v => attributeInt k v
  | telemetryBool k v => attributeBool k v
  | telemetryFloat k v => attributeFloat k v
  | telemetryString k v => attributeString k v
  | telemetry d n => attributes d n
  | c => c

end SendCall

/-- The call of a public send method on the HTTP client. -/
def ThingsBoardHttpSized.call {Doc : Type} (J : JsonLibrary Doc) (transport : Transport)
    (c : ThingsBoardHttpSized) : SendCall → Outcome
  | .telemetryInt k v => c.sendTelemetryInt J transport k v
  | .telemetryBool k v => c.sendTelemetryBool J transport k v
  | .telemetryFloat k v => c.sendTelemetryFloat J transport k v
  | .telemetryString k v => c.sendTelemetryString J transport k v
  | .telemetry d n => c.sendTelemetry J transport d n
  | .attributeInt k v => c.sendAttributeInt J transport k v
  | .attributeBool k v => c.sendAttributeBool J transport k v
  | .attributeFloat k v => c.sendAttributeFloat J transport k v
  | .attributeString k v => c.sendAttributeString J transport k v
  | .attributes d n => c.sendAttributes J transport d n

/-- The call of a public send method on the HTTPS client. -/
def ThingsBoardHttpsSized.call {Doc : Type} (J : JsonLibrary Doc) (transport : Transport)
    (c : ThingsBoardHttpsSized) : SendCall → Outcome
  | .telemetryInt k v => c.sendTelemetryInt J transport k v
  | .telemetryBool k v => c.sendTelemetryBool J transport k v
  | .telemetryFloat k v => c.sendTelemetryFloat J transport k v
  | .telemetryString k v => c.sendTelemetryString J transport k v
  | .telemetry d n => c.sendTelemetry J transport d n
  | .attributeInt k v => c.sendAttributeInt J transport k v
  | .attributeBool k v => c.sendAttributeBool J transport k v
  | .attributeFloat k v => c.sendAttributeFloat J transport k v
  | .attributeString k v => c.sendAttributeString J transport k v
  | .attributes d n => c.sendAttributes J transport d n

/-- The URL `<scheme>://<host>:<port>/api/v1/<token>/<segment>`, the port in decimal. -/
def requestUrl (scheme host : String) (port : Int) (token segment : String) : String :=
  scheme ++ "://" ++ host ++ ":" ++ to_string port ++ "/api/v1/" ++ token ++ "/" ++ segment

/-- The final path segment of the API a call belongs to. -/
def SendCall.segment (k : SendCall) : String :=
  if k.isTelemetry then "telemetry" else "attributes"

/-! ## A reference JSON library -/

/-- The content of a reference container: nothing yet, one scalar, or an object with its
members in insertion order. -/
inductive RefVariant where
  | null
  | scalar (v : JsonValue)
  | object (members : List (String × JsonValue))
deriving DecidableEq, Repr

/-- Modelled from the spec: the JSON document abstraction with bounded-capacity
construction (the library itself is not part of the repository). A container knows for
how many members its document has room, how many member slots are taken, and its
content. -/
structure RefDoc where
  capacity : Nat
  used : Nat
  root : RefVariant
deriving DecidableEq, Repr

namespace RefDoc

/-- The members with the value under the first occurrence of `key` replaced. -/
def replaceMember (key : String) (value : JsonValue) :
    List (String × JsonValue) → List (String × JsonValue)
  | [] => []
  | (k, v) :: ms =>
    if k = key then (k, value) :: ms else (k, v) :: replaceMember key value ms

/-- Modelled from the spec: field assignment of the JSON document abstraction (the library
itself is not part of the repository). A container without content becomes an object; an
object replaces the value of a member it has, or takes a free slot for a new member, and
the write fails when no slot is free; a container that holds a scalar rejects the write. -/
def setMember (d : RefDoc) (key : String) (value : JsonValue) : Bool × RefDoc :=
  match d.root with
  | .scalar _ => (false, d)
  | .null =>
    if d.used < d.capacity then
      (true, { d with used := d.used + 1, root := .object [(key, value)] })
    else (false, { d with root := .object [] })
  | .object ms =>
    if ms.any (fun p => p.1 = key) then
      (true, { d with root := .object (replaceMember key value ms) })
    else if d.used < d.capacity then
      (true, { d with used := d.used + 1, root := .object (ms ++ [(key, value)]) })
    else (false, d)

/-- Modelled from the spec: scalar assignment of the JSON document abstraction (the library
itself is not part of the repository). The container holds the scalar afterwards, whatever it
held before; a null string pointer leaves it without content. The write succeeds. -/
def set (d : RefDoc) (value : JsonValue) : Bool × RefDoc :=
  match value with
  | .str none => (true, { d with root := .null })
  | v => (true, { d with root := .scalar v })

/-- The escape letter of a character inside a JSON string, when it has one: the double
quote (34), the backslash (92), backspace, form feed, line feed, carriage return, tab. -/
def escapeChar (c : Char) : Option Char :=
  if c = Char.ofNat 34 then some (Char.ofNat 34)
  else if c = Char.ofNat 92 then some (Char.ofNat 92)
  else if c = Char.ofNat 8 then some 'b'
  else if c = Char.ofNat 12 then some 'f'
  else if c = Char.ofNat 10 then some 'n'
  else if c = Char.ofNat 13 then some 'r'
  else if c = Char.ofNat 9 then some 't'
  else none

/-- The characters of a string between its quotes. -/
def escape : List Char → List Char
  | [] => []
  | c :: cs =>
    match escapeChar c with
    | some e => Char.ofNat 92 :: e :: escape cs
    | none => c :: escape cs

/-- A quoted JSON string. -/
def quote (s : String) : String :=
  "\"" ++ String.mk (escape s.data) ++ "\""

/-- The JSON text of a value; `fmt` is the text of a floating point number. -/
def renderValue (fmt : CFloat → String) : JsonValue → String
  | .boolean b => if b then "true" else "false"
  | .integer i => to_string i
  | .uinteger u => Nat.repr u
  | .real f => fmt f
  | .str (some s) => quote s
  | .str none => "null"

/-- Modelled from the spec: text rendering of the JSON document abstraction (the library
itself is not part of the repository): the text without white space. -/
def render (fmt : CFloat → String) (d : RefDoc) : String :=
  match d.root with
  | .null => "null"
  | .scalar v => renderValue fmt v
  | .object ms =>
    "\x7b" ++ ",".intercalate (ms.map (fun p => quote p.1 ++ ":" ++ renderValue fmt p.2))
      ++ "\x7d"

end RefDoc

/-- The reference JSON library: containers with room for `n` members, field and scalar
assignment, and text rendering, with `fmt` for the text of floating point numbers. -/
def refJson (fmt : CFloat → String) : JsonLibrary RefDoc :=
  { toVariant := fun n => { capacity := n, used := 0, root := .null }
    setMember := RefDoc.setMember
    set := RefDoc.set
    render := RefDoc.render fmt }

/-- A JSON library whose containers are not bound to a document: every write fails and
the text is `null`. -/
def unboundJson : JsonLibrary Unit :=
  { toVariant := fun _ => ()
    setMember := fun _ _ _ => (false, ())
    set := fun _ _ => (false, ())
    render := fun _ => "null" }

/-- A floating point format for the examples (they send no floating point number). -/
def noFloat : CFloat → String := fun _ => "0.0"

/-! ## Records as JSON fields -/

namespace Telemetry

open dataType

/-- The value of a record as the code hands it to the JSON library, by its tag. -/
def jsonValue (t : Telemetry) : Option JsonValue :=
  match t.m_type with
  | TYPE_NONE => none
  | TYPE_BOOL => some (.boolean t.m_value.asBoolean)
  | TYPE_INT => some (.integer t.m_value.asInteger)
  | TYPE_UINT => some (.uinteger t.m_value.asUinteger)
  | TYPE_REAL => some (.real t.m_value.asReal)
  | TYPE_STR => some (.str t.m_value.asStr)

/-- The JSON field of a record that has a key and a value. -/
def field (t : Telemetry) : Option (String × JsonValue) :=
  match t.m_key, t.jsonValue with
  | some k, some v => some (k, v)
  | _, _ => none

/-- A valid record of a batch: it has a key and a value. -/
def valid (t : Telemetry) : Prop :=
  t.m_key ≠ none ∧ t.m_type ≠ TYPE_NONE

instance (t : Telemetry) : Decidable t.valid := by
  unfold valid; exact inferInstance

end Telemetry

/-- The fields of the first `n` records of an array, in the order of the array. -/
def recordFields (data : Nat → Telemetry) (n : Nat) : List (String × JsonValue) :=
  (List.range n).filterMap (fun i => (data i).field)

/-- The records of a list as an array; past its end the array holds default records. -/
def arrayOf (l : List Telemetry) : Nat → Telemetry :=
  fun i => l.getD i Telemetry.empty

/-! ## The document a send builds -/

/-- The flag and the container that `sendKeyval` gets from `serializeKeyval` on its fresh
one-member document. -/
def keyvalDoc {Doc : Type} (J : JsonLibrary Doc) (t : Telemetry) : Bool × Doc :=
  t.serializeKeyval J (J.toVariant (JSON_OBJECT_SIZE 1))

/-- The flag and the container that `sendDataArray` gets from its loop over the first
`data_count` records on its fresh document of `TB_FIELDS_AMT` members. -/
def arrayDoc {Doc : Type} (J : JsonLibrary Doc) (data : Nat → Telemetry) (data_count : Nat) :
    Bool × Doc :=
  serializeRecords J data data_count 0 (J.toVariant (JSON_OBJECT_SIZE TB_FIELDS_AMT))

/-! ## Example clients -/

/-- An HTTP client after `begin(socket 1, "TOKEN", "demo.thingsboard.io", 8080, logger 0)`. -/
def exampleHttp : ThingsBoardHttpSized :=
  { m_Socket := some ⟨1⟩, m_Token := some "TOKEN", m_Host := "demo.thingsboard.io",
    m_Port := 8080, m_Logger := ⟨0⟩ }

/-- An HTTPS client after `begin(socket 2, "TOKEN", "demo.thingsboard.io", 443, logger 0)`. -/
def exampleHttps : ThingsBoardHttpsSized :=
  { m_Socket := some ⟨2⟩, m_Token := some "TOKEN", m_Host := "demo.thingsboard.io",
    m_ssl_ca_pem := none, m_Port := 443, m_Logger := ⟨0⟩ }

/-- A transport whose every response has status 200. -/
def always200 : Transport := fun _ => 200

/-- A transport whose every response has status 404. -/
def always404 : Transport := fun _ => 404

/-- A string value of 60 bytes: with the key `k` the text of the object has 66 bytes. -/
def longValue : Option String :=
  some "012345678901234567890123456789012345678901234567890123456789"

/-- A batch of two valid records with different keys: `a = 1` and `b = true`. -/
def exampleBatch : Nat → Telemetry :=
  arrayOf [Telemetry.ofIntegral (some "a") 1, Telemetry.ofBool (some "b") true]

/-- A batch of two valid records with the same key: `a = 1` and `a = 2`. -/
def duplicateKeyBatch : Nat → Telemetry :=
  arrayOf [Telemetry.ofIntegral (some "a") 1, Telemetry.ofIntegral (some "a") 2]

/-- A batch of a record without a key, holding 5, and the record `a = 1`. -/
def anonymousFirstBatch : Nat → Telemetry :=
  arrayOf [Telemetry.empty.setValueInt 5, Telemetry.ofIntegral (some "a") 1]

/-- A batch of the record `a = 1` and a record without a key, holding 5. -/
def anonymousLastBatch : Nat → Telemetry :=
  arrayOf [Telemetry.ofIntegral (some "a") 1, Telemetry.empty.setValueInt 5]

/-! # Theorems -/

section Theorems

variable {Doc : Type}

/-! ## The text in the buffer -/

theorem serializeJson_of_fits (J : JsonLibrary Doc) (doc : Doc) (size : Nat)
    (h : measureJson J doc ≤ size - 1) : serializeJson J doc size = J.render doc := by
  unfold serializeJson measureJson at *
  rw [List.take_of_length_le h]

/-! ## The transport step -/

namespace ThingsBoardHttpSized

/-- The request that the HTTP client hands to the transport. -/
theorem json_of_token_none (transport : Transport) (c : ThingsBoardHttpSized)
    (json : Option String) (telemetry : Bool) (h : c.m_Token = none) :
    c.sendTelemetryOrAttributeJson transport json telemetry
      = { ret := false, logged := [], sent := [] } := by
  unfold sendTelemetryOrAttributeJson
  rw [h]
  cases json <;> rfl

theorem json_of_token_some (transport : Transport) (c : ThingsBoardHttpSized)
    (json : String) (telemetry : Bool) (tok : String) (h : c.m_Token = some tok) :
    ∃ r : HttpRequest,
      c.sendTelemetryOrAttributeJson transport (some json) telemetry
        = { ret := decide (transport r = OK_SUCCESS), logged := [], sent := [r] } ∧
      r.socket = c.m_Socket ∧ r.body = json ∧ r.method = HttpMethod.HTTP_POST ∧
      r.headers = [("Content-Type", "application/json")] ∧
      r.url = "http://" ++ c.m_Host ++ ":" ++ to_string c.m_Port ++ "/api/v1/" ++ tok
        ++ (if telemetry then "/telemetry" else "/attributes") := by
  unfold sendTelemetryOrAttributeJson
  rw [h]
  exact ⟨_, rfl, rfl, rfl, rfl, rfl, rfl⟩

/-- The ways `sendKeyval` ends. -/
theorem sendKeyval_cases (J : JsonLibrary Doc) (transport : Transport)
    (c : ThingsBoardHttpSized) (t : Telemetry) (telemetry : Bool) :
    ((keyvalDoc J t).1 = false ∧
      c.sendKeyval J transport t telemetry
        = { ret := false, logged := ["unable to serialize data"], sent := [] }) ∨
    ((keyvalDoc J t).1 = true ∧ TB_PAYLOAD_SIZE - 1 < measureJson J (keyvalDoc J t).2 ∧
      c.sendKeyval J transport t telemetry
        = { ret := false, logged := ["too small buffer for JSON data"], sent := [] }) ∨
    ((keyvalDoc J t).1 = true ∧ measureJson J (keyvalDoc J t).2 ≤ TB_PAYLOAD_SIZE - 1 ∧
      c.sendKeyval J transport t telemetry
        = c.sendTelemetryOrAttributeJson transport (some (J.render (keyvalDoc J t).2))
            telemetry) := by
  unfold sendKeyval keyvalDoc
  dsimp only
  generalize t.serializeKeyval J (J.toVariant (JSON_OBJECT_SIZE 1)) = r
  obtain ⟨b, d⟩ := r
  cases b
  · left; exact ⟨rfl, rfl⟩
  · right
    by_cases hm : measureJson J d > TB_PAYLOAD_SIZE - 1
    · left; exact ⟨rfl, hm, if_pos hm⟩
    · right
      have hle : measureJson J d ≤ TB_PAYLOAD_SIZE - 1 := Nat.le_of_not_lt hm
      refine ⟨rfl, hle, ?_⟩
      dsimp only
      rw [if_neg hm, serializeJson_of_fits J d TB_PAYLOAD_SIZE hle]

/-- The ways `sendDataArray` ends. -/
theorem sendDataArray_cases (J : JsonLibrary Doc) (transport : Transport)
    (c : ThingsBoardHttpSized) (data : Nat → Telemetry) (data_count : Nat) (telemetry : Bool) :
    (TB_FIELDS_AMT < data_count ∧
      c.sendDataArray J transport data data_count telemetry
        = { ret := false, logged := ["too much JSON fields passed"], sent := [] }) ∨
    (data_count ≤ TB_FIELDS_AMT ∧ (arrayDoc J data data_count).1 = false ∧
      c.sendDataArray J transport data data_count telemetry
        = { ret := false, logged := ["unable to serialize data"], sent := [] }) ∨
    (data_count ≤ TB_FIELDS_AMT ∧ (arrayDoc J data data_count).1 = true ∧
      TB_PAYLOAD_SIZE - 1 < measureJson J (arrayDoc J data data_count).2 ∧
      c.sendDataArray J transport data data_count telemetry
        = { ret := false, logged := ["too small buffer for JSON data"], sent := [] }) ∨
    (data_count ≤ TB_FIELDS_AMT ∧ (arrayDoc J data data_count).1 = true ∧
      measureJson J (arrayDoc J data data_count).2 ≤ TB_PAYLOAD_SIZE - 1 ∧
      c.sendDataArray J transport data data_count telemetry
        = c.sendTelemetryOrAttributeJson transport
            (some (J.render (arrayDoc J data data_count).2)) telemetry) := by
  unfold sendDataArray arrayDoc
  by_cases hc : TB_FIELDS_AMT < data_count
  · left; exact ⟨hc, if_pos hc⟩
  · right
    have hle : data_count ≤ TB_FIELDS_AMT := Nat.le_of_not_lt hc
    rw [if_neg hc]
    dsimp only
    generalize serializeRecords J data data_count 0 (J.toVariant (JSON_OBJECT_SIZE TB_FIELDS_AMT)) = r
    obtain ⟨b, d⟩ := r
    cases b
    · left; exact ⟨hle, rfl, rfl⟩
    · right
      by_cases hm : measureJson J d > TB_PAYLOAD_SIZE - 1
      · left; exact ⟨hle, rfl, hm, if_pos hm⟩
      · right
        have hfit : measureJson J d ≤ TB_PAYLOAD_SIZE - 1 := Nat.le_of_not_lt hm
        refine ⟨hle, rfl, hfit, ?_⟩
        dsimp only
        rw [if_neg hm, serializeJson_of_fits J d TB_PAYLOAD_SIZE hfit]


end ThingsBoardHttpSized

namespace ThingsBoardHttpsSized

theorem json_of_token_none_tls (transport : Transport) (c : ThingsBoardHttpsSized)
    (json : Option String) (telemetry : Bool) (h : c.m_Token = none) :
    c.sendTelemetryOrAttributeJson transport json telemetry
      = { ret := false, logged := [], sent := [] } := by
  unfold sendTelemetryOrAttributeJson
  rw [h]
  cases json <;> rfl

theorem json_of_socket_none (transport : Transport) (c : ThingsBoardHttpsSized)
    (json : Option String) (telemetry : Bool) (h : c.m_Socket = none) :
    c.sendTelemetryOrAttributeJson transport json telemetry
      = { ret := false, logged := [], sent := [] } := by
  unfold sendTelemetryOrAttributeJson
  rw [h]
  cases json <;> cases c.m_Token <;> rfl

/-- The request that the HTTPS client hands to the transport. -/
theorem json_of_ready (transport : Transport) (c : ThingsBoardHttpsSized)
    (json : String) (telemetry : Bool) (tok : String) (sock : Socket)
    (h : c.m_Token = some tok) (hs : c.m_Socket = some sock) :
    ∃ r : HttpRequest,
      c.sendTelemetryOrAttributeJson transport (some json) telemetry
        = { ret := decide (transport r = OK_SUCCESS), logged := [], sent := [r] } ∧
      r.socket = some sock ∧ r.body = json ∧ r.method = HttpMethod.HTTP_POST ∧
      r.headers = [("Content-Type", "application/json")] ∧
      r.url = "https://" ++ c.m_Host ++ ":" ++ to_string c.m_Port ++ "/api/v1/" ++ tok
        ++ (if telemetry then "/telemetry" else "/attributes") := by
  unfold sendTelemetryOrAttributeJson
  rw [h, hs]
  exact ⟨_, rfl, rfl, rfl, rfl, rfl, rfl⟩

/-- The ways `sendKeyval` ends. -/
theorem sendKeyval_cases_tls (J : JsonLibrary Doc) (transport : Transport)
    (c : ThingsBoardHttpsSized) (t : Telemetry) (telemetry : Bool) :
    ((keyvalDoc J t).1 = false ∧
      c.sendKeyval J transport t telemetry
        = { ret := false, logged := ["unable to serialize data"], sent := [] }) ∨
    ((keyvalDoc J t).1 = true ∧ TB_PAYLOAD_SIZE - 1 < measureJson J (keyvalDoc J t).2 ∧
      c.sendKeyval J transport t telemetry
        = { ret := false, logged := ["too small buffer for JSON data"], sent := [] }) ∨
    ((keyvalDoc J t).1 = true ∧ measureJson J (keyvalDoc J t).2 ≤ TB_PAYLOAD_SIZE - 1 ∧
      c.sendKeyval J transport t telemetry
        = c.sendTelemetryOrAttributeJson transport (some (J.render (keyvalDoc J t).2))
            telemetry) := by
  unfold sendKeyval keyvalDoc
  dsimp only
  generalize t.serializeKeyval J (J.toVariant (JSON_OBJECT_SIZE 1)) = r
  obtain ⟨b, d⟩ := r
  cases b
  · left; exact ⟨rfl, rfl⟩
  · right
    by_cases hm : measureJson J d > TB_PAYLOAD_SIZE - 1
    · left; exact ⟨rfl, hm, if_pos hm⟩
    · right
      have hle : measureJson J d ≤ TB_PAYLOAD_SIZE - 1 := Nat.le_of_not_lt hm
      refine ⟨rfl, hle, ?_⟩
      dsimp only
      rw [if_neg hm, serializeJson_of_fits J d TB_PAYLOAD_SIZE hle]

/-- The ways `sendDataArray` ends. -/
theorem sendDataArray_cases_tls (J : JsonLibrary Doc) (transport : Transport)
    (c : ThingsBoardHttpsSized) (data : Nat → Telemetry) (data_count : Nat) (telemetry : Bool) :
    (TB_FIELDS_AMT < data_count ∧
      c.sendDataArray J transport data data_count telemetry
        = { ret := false, logged := ["too much JSON fields passed"], sent := [] }) ∨
    (data_count ≤ TB_FIELDS_AMT ∧ (arrayDoc J data data_count).1 = false ∧
      c.sendDataArray J transport data data_count telemetry
        = { ret := false, logged := ["unable to serialize data"], sent := [] }) ∨
    (data_count ≤ TB_FIELDS_AMT ∧ (arrayDoc J data data_count).1 = true ∧
      TB_PAYLOAD_SIZE - 1 < measureJson J (arrayDoc J data data_count).2 ∧
      c.sendDataArray J transport data data_count telemetry
        = { ret := false, logged := ["too small buffer for JSON data"], sent := [] }) ∨
    (data_count ≤ TB_FIELDS_AMT ∧ (arrayDoc J data data_count).1 = true ∧
      measureJson J (arrayDoc J data data_count).2 ≤ TB_PAYLOAD_SIZE - 1 ∧
      c.sendDataArray J transport data data_count telemetry
        = c.sendTelemetryOrAttributeJson transport
            (some (J.render (arrayDoc J data data_count).2)) telemetry) := by
  unfold sendDataArray arrayDoc
  by_cases hc : TB_FIELDS_AMT < data_count
  · left; exact ⟨hc, if_pos hc⟩
  · right
    have hle : data_count ≤ TB_FIELDS_AMT := Nat.le_of_not_lt hc
    rw [if_neg hc]
    dsimp only
    generalize serializeRecords J data data_count 0 (J.toVariant (JSON_OBJECT_SIZE TB_FIELDS_AMT)) = r
    obtain ⟨b, d⟩ := r
    cases b
    · left; exact ⟨hle, rfl, rfl⟩
    · right
      by_cases hm : measureJson J d > TB_PAYLOAD_SIZE - 1
      · left; exact ⟨hle, rfl, hm, if_pos hm⟩
      · right
        have hfit : measureJson J d ≤ TB_PAYLOAD_SIZE - 1 := Nat.le_of_not_lt hm
        refine ⟨hle, rfl, hfit, ?_⟩
        dsimp only
        rw [if_neg hm, serializeJson_of_fits J d TB_PAYLOAD_SIZE hfit]

end ThingsBoardHttpsSized

/-! ## The two outcomes of a send -/

/-- A failed local check leaves the result `false` and the transport untouched; otherwise
the HTTP single-value send is the transport step on the complete text. -/
theorem ThingsBoardHttpSized.sendKeyval_local_or_transport (J : JsonLibrary Doc)
    (transport : Transport) (c : ThingsBoardHttpSized) (t : Telemetry) (telemetry : Bool) :
    (((keyvalDoc J t).1 = false ∨ TB_PAYLOAD_SIZE - 1 < measureJson J (keyvalDoc J t).2) ∧
      (c.sendKeyval J transport t telemetry).ret = false ∧
      (c.sendKeyval J transport t telemetry).sent = []) ∨
    ((keyvalDoc J t).1 = true ∧ measureJson J (keyvalDoc J t).2 ≤ TB_PAYLOAD_SIZE - 1 ∧
      c.sendKeyval J transport t telemetry
        = c.sendTelemetryOrAttributeJson transport (some (J.render (keyvalDoc J t).2))
            telemetry) := by
  rcases c.sendKeyval_cases J transport t telemetry with ⟨hf, he⟩ | ⟨_, hb, he⟩ | h
  · left; rw [he]; exact ⟨Or.inl hf, rfl, rfl⟩
  · left; rw [he]; exact ⟨Or.inr hb, rfl, rfl⟩
  · right; exact h

/-- The same for the HTTP batched send, with the count check among the local checks. -/
theorem ThingsBoardHttpSized.sendDataArray_local_or_transport (J : JsonLibrary Doc)
    (transport : Transport) (c : ThingsBoardHttpSized) (data : Nat → Telemetry)
    (data_count : Nat) (telemetry : Bool) :
    ((TB_FIELDS_AMT < data_count ∨ (arrayDoc J data data_count).1 = false ∨
        TB_PAYLOAD_SIZE - 1 < measureJson J (arrayDoc J data data_count).2) ∧
      (c.sendDataArray J transport data data_count telemetry).ret = false ∧
      (c.sendDataArray J transport data data_count telemetry).sent = []) ∨
    (data_count ≤ TB_FIELDS_AMT ∧ (arrayDoc J data data_count).1 = true ∧
      measureJson J (arrayDoc J data data_count).2 ≤ TB_PAYLOAD_SIZE - 1 ∧
      c.sendDataArray J transport data data_count telemetry
        = c.sendTelemetryOrAttributeJson transport
            (some (J.render (arrayDoc J data data_count).2)) telemetry) := by
  rcases c.sendDataArray_cases J transport data data_count telemetry with
    ⟨hc, he⟩ | ⟨_, hf, he⟩ | ⟨_, _, hb, he⟩ | h
  · left; rw [he]; exact ⟨Or.inl hc, rfl, rfl⟩
  · left; rw [he]; exact ⟨Or.inr (Or.inl hf), rfl, rfl⟩
  · left; rw [he]; exact ⟨Or.inr (Or.inr hb), rfl, rfl⟩
  · right; exact h

/-- The same for the HTTPS single-value send. -/
theorem ThingsBoardHttpsSized.sendKeyval_local_or_transport_tls (J : JsonLibrary Doc)
    (transport : Transport) (c : ThingsBoardHttpsSized) (t : Telemetry) (telemetry : Bool) :
    (((keyvalDoc J t).1 = false ∨ TB_PAYLOAD_SIZE - 1 < measureJson J (keyvalDoc J t).2) ∧
      (c.sendKeyval J transport t telemetry).ret = false ∧
      (c.sendKeyval J transport t telemetry).sent = []) ∨
    ((keyvalDoc J t).1 = true ∧ measureJson J (keyvalDoc J t).2 ≤ TB_PAYLOAD_SIZE - 1 ∧
      c.sendKeyval J transport t telemetry
        = c.sendTelemetryOrAttributeJson transport (some (J.render (keyvalDoc J t).2))
            telemetry) := by
  rcases c.sendKeyval_cases_tls J transport t telemetry with ⟨hf, he⟩ | ⟨_, hb, he⟩ | h
  · left; rw [he]; exact ⟨Or.inl hf, rfl, rfl⟩
  · left; rw [he]; exact ⟨Or.inr hb, rfl, rfl⟩
  · right; exact h

/-- The same for the HTTPS batched send. -/
theorem ThingsBoardHttpsSized.sendDataArray_local_or_transport_tls (J : JsonLibrary Doc)
    (transport : Transport) (c : ThingsBoardHttpsSized) (data : Nat → Telemetry)
    (data_count : Nat) (telemetry : Bool) :
    ((TB_FIELDS_AMT < data_count ∨ (arrayDoc J data data_count).1 = false ∨
        TB_PAYLOAD_SIZE - 1 < measureJson J (arrayDoc J data data_count).2) ∧
      (c.sendDataArray J transport data data_count telemetry).ret = false ∧
      (c.sendDataArray J transport data data_count telemetry).sent = []) ∨
    (data_count ≤ TB_FIELDS_AMT ∧ (arrayDoc J data data_count).1 = true ∧
      measureJson J (arrayDoc J data data_count).2 ≤ TB_PAYLOAD_SIZE - 1 ∧
      c.sendDataArray J transport data data_count telemetry
        = c.sendTelemetryOrAttributeJson transport
            (some (J.render (arrayDoc J data data_count).2)) telemetry) := by
  rcases c.sendDataArray_cases_tls J transport data data_count telemetry with
    ⟨hc, he⟩ | ⟨_, hf, he⟩ | ⟨_, _, hb, he⟩ | h
  · left; rw [he]; exact ⟨Or.inl hc, rfl, rfl⟩
  · left; rw [he]; exact ⟨Or.inr (Or.inl hf), rfl, rfl⟩
  · left; rw [he]; exact ⟨Or.inr (Or.inr hb), rfl, rfl⟩
  · right; exact h

/-- The transport step of the HTTP client either sends nothing and fails, or sends once. -/
theorem ThingsBoardHttpSized.json_ret_sent (transport : Transport) (c : ThingsBoardHttpSized)
    (json : String) (telemetry : Bool) :
    (c.m_Token = none ∧
      (c.sendTelemetryOrAttributeJson transport (some json) telemetry).ret = false ∧
      (c.sendTelemetryOrAttributeJson transport (some json) telemetry).sent = []) ∨
    (∃ tok r, c.m_Token = some tok ∧
      (c.sendTelemetryOrAttributeJson transport (some json) telemetry).sent = [r] ∧
      ((c.sendTelemetryOrAttributeJson transport (some json) telemetry).ret = true
        ↔ transport r = 200) ∧
      r.socket = c.m_Socket ∧ r.body = json ∧
      r.url = "http://" ++ c.m_Host ++ ":" ++ to_string c.m_Port ++ "/api/v1/" ++ tok
        ++ (if telemetry then "/telemetry" else "/attributes")) := by
  cases htok : c.m_Token with
  | none =>
    left
    rw [c.json_of_token_none transport (some json) telemetry htok]
    exact ⟨rfl, rfl, rfl⟩
  | some tok =>
    right
    obtain ⟨r, hr, hs, hb, _, _, hu⟩ := c.json_of_token_some transport json telemetry tok htok
    refine ⟨tok, r, rfl, ?_, ?_, hs, hb, hu⟩
    · rw [hr]
    · rw [hr]; simp [OK_SUCCESS]

/-- The transport step of the HTTPS client either sends nothing and fails, or sends once. -/
theorem ThingsBoardHttpsSized.json_ret_sent_tls (transport : Transport)
    (c : ThingsBoardHttpsSized) (json : String) (telemetry : Bool) :
    ((c.m_Token = none ∨ c.m_Socket = none) ∧
      (c.sendTelemetryOrAttributeJson transport (some json) telemetry).ret = false ∧
      (c.sendTelemetryOrAttributeJson transport (some json) telemetry).sent = []) ∨
    (∃ tok sock r, c.m_Token = some tok ∧ c.m_Socket = some sock ∧
      (c.sendTelemetryOrAttributeJson transport (some json) telemetry).sent = [r] ∧
      ((c.sendTelemetryOrAttributeJson transport (some json) telemetry).ret = true
        ↔ transport r = 200) ∧
      r.socket = some sock ∧ r.body = json ∧
      r.url = "https://" ++ c.m_Host ++ ":" ++ to_string c.m_Port ++ "/api/v1/" ++ tok
        ++ (if telemetry then "/telemetry" else "/attributes")) := by
  cases htok : c.m_Token with
  | none =>
    left
    rw [c.json_of_token_none_tls transport (some json) telemetry htok]
    exact ⟨Or.inl rfl, rfl, rfl⟩
  | some tok =>
    cases hsock : c.m_Socket with
    | none =>
      left
      rw [c.json_of_socket_none transport (some json) telemetry hsock]
      exact ⟨Or.inr rfl, rfl, rfl⟩
    | some sock =>
      right
      obtain ⟨r, hr, hs, hb, _, _, hu⟩ :=
        c.json_of_ready transport json telemetry tok sock htok hsock
      refine ⟨tok, sock, r, rfl, rfl, ?_, ?_, hs, hb, hu⟩
      · rw [hr]
      · rw [hr]; simp [OK_SUCCESS]

/-! ## C1 : the status code decides the result -/

/-- C1. On both clients, a well-formed single-value or batched send (token not null, for
HTTPS the socket not null, count at most `TB_FIELDS_AMT`, the document serialized and its
text, with the terminator, within `TB_PAYLOAD_SIZE`) hands exactly one request to the
transport and returns `true` exactly when the status of the response is 200. -/
theorem C1_status_200_decides {Doc : Type} (J : JsonLibrary Doc) (transport : Transport)
    (h : ThingsBoardHttpSized) (s : ThingsBoardHttpsSized) (t : Telemetry)
    (data : Nat → Telemetry) (data_count : Nat) (telemetry : Bool)
    (hTokenHttp : h.m_Token ≠ none) (hTokenHttps : s.m_Token ≠ none)
    (hSocket : s.m_Socket ≠ none) (hCount : data_count ≤ TB_FIELDS_AMT)
    (hKeyval : (keyvalDoc J t).1 = true)
    (hKeyvalFits : measureJson J (keyvalDoc J t).2 + 1 ≤ TB_PAYLOAD_SIZE)
    (hArray : (arrayDoc J data data_count).1 = true)
    (hArrayFits : measureJson J (arrayDoc J data data_count).2 + 1 ≤ TB_PAYLOAD_SIZE) :
    (∃ r, (h.sendKeyval J transport t telemetry).sent = [r] ∧
      ((h.sendKeyval J transport t telemetry).ret = true ↔ transport r = 200)) ∧
    (∃ r, (h.sendDataArray J transport data data_count telemetry).sent = [r] ∧
      ((h.sendDataArray J transport data data_count telemetry).ret = true
        ↔ transport r = 200)) ∧
    (∃ r, (s.sendKeyval J transport t telemetry).sent = [r] ∧
      ((s.sendKeyval J transport t telemetry).ret = true ↔ transport r = 200)) ∧
    (∃ r, (s.sendDataArray J transport data data_count telemetry).sent = [r] ∧
      ((s.sendDataArray J transport data data_count telemetry).ret = true
        ↔ transport r = 200)) := by
  have hkf : ¬ TB_PAYLOAD_SIZE - 1 < measureJson J (keyvalDoc J t).2 := by
    unfold TB_PAYLOAD_SIZE at *; omega
  have haf : ¬ TB_PAYLOAD_SIZE - 1 < measureJson J (arrayDoc J data data_count).2 := by
    unfold TB_PAYLOAD_SIZE at *; omega
  have hkt : ¬ (keyvalDoc J t).1 = false := by rw [hKeyval]; exact Bool.noConfusion
  have hat : ¬ (arrayDoc J data data_count).1 = false := by rw [hArray]; exact Bool.noConfusion
  refine ⟨?_, ?_, ?_, ?_⟩
  · rcases h.sendKeyval_local_or_transport J transport t telemetry with ⟨hl, _⟩ | ⟨_, _, he⟩
    · rcases hl with hl | hl
      · exact absurd hl hkt
      · exact absurd hl hkf
    · rw [he]
      rcases h.json_ret_sent transport (J.render (keyvalDoc J t).2) telemetry with
        ⟨hn, _⟩ | ⟨_, r, _, hs, hr, _⟩
      · exact absurd hn hTokenHttp
      · exact ⟨r, hs, hr⟩
  · rcases h.sendDataArray_local_or_transport J transport data data_count telemetry with
      ⟨hl, _⟩ | ⟨_, _, _, he⟩
    · rcases hl with hl | hl | hl
      · exact absurd hCount (Nat.not_le_of_lt hl)
      · exact absurd hl hat
      · exact absurd hl haf
    · rw [he]
      rcases h.json_ret_sent transport (J.render (arrayDoc J data data_count).2) telemetry with
        ⟨hn, _⟩ | ⟨_, r, _, hs, hr, _⟩
      · exact absurd hn hTokenHttp
      · exact ⟨r, hs, hr⟩
  · rcases s.sendKeyval_local_or_transport_tls J transport t telemetry with ⟨hl, _⟩ | ⟨_, _, he⟩
    · rcases hl with hl | hl
      · exact absurd hl hkt
      · exact absurd hl hkf
    · rw [he]
      rcases s.json_ret_sent_tls transport (J.render (keyvalDoc J t).2) telemetry with
        ⟨hn, _⟩ | ⟨_, _, r, _, _, hs, hr, _⟩
      · rcases hn with hn | hn
        · exact absurd hn hTokenHttps
        · exact absurd hn hSocket
      · exact ⟨r, hs, hr⟩
  · rcases s.sendDataArray_local_or_transport_tls J transport data data_count telemetry with
      ⟨hl, _⟩ | ⟨_, _, _, he⟩
    · rcases hl with hl | hl | hl
      · exact absurd hCount (Nat.not_le_of_lt hl)
      · exact absurd hl hat
      · exact absurd hl haf
    · rw [he]
      rcases s.json_ret_sent_tls transport (J.render (arrayDoc J data data_count).2) telemetry with
        ⟨hn, _⟩ | ⟨_, _, r, _, _, hs, hr, _⟩
      · rcases hn with hn | hn
        · exact absurd hn hTokenHttps
        · exact absurd hn hSocket
      · exact ⟨r, hs, hr⟩

/-- C1 at a concrete input: `{"temp":25}` and a batch of two records, on the example
clients, with a transport that answers 404. -/
theorem C1_status_200_decides_witness :
    (∃ r, (exampleHttp.sendKeyval (refJson noFloat) always404
        (Telemetry.ofIntegral (some "temp") 25) true).sent = [r] ∧
      ((exampleHttp.sendKeyval (refJson noFloat) always404
        (Telemetry.ofIntegral (some "temp") 25) true).ret = true ↔ always404 r = 200)) ∧
    (∃ r, (exampleHttp.sendDataArray (refJson noFloat) always404
        (arrayOf [Telemetry.ofIntegral (some "a") 1, Telemetry.ofBool (some "b") true]) 2
        true).sent = [r] ∧
      ((exampleHttp.sendDataArray (refJson noFloat) always404
        (arrayOf [Telemetry.ofIntegral (some "a") 1, Telemetry.ofBool (some "b") true]) 2
        true).ret = true ↔ always404 r = 200)) ∧
    (∃ r, (exampleHttps.sendKeyval (refJson noFloat) always404
        (Telemetry.ofIntegral (some "temp") 25) true).sent = [r] ∧
      ((exampleHttps.sendKeyval (refJson noFloat) always404
        (Telemetry.ofIntegral (some "temp") 25) true).ret = true ↔ always404 r = 200)) ∧
    (∃ r, (exampleHttps.sendDataArray (refJson noFloat) always404
        (arrayOf [Telemetry.ofIntegral (some "a") 1, Telemetry.ofBool (some "b") true]) 2
        true).sent = [r] ∧
      ((exampleHttps.sendDataArray (refJson noFloat) always404
        (arrayOf [Telemetry.ofIntegral (some "a") 1, Telemetry.ofBool (some "b") true]) 2
        true).ret = true ↔ always404 r = 200)) :=
  C1_status_200_decides (refJson noFloat) always404 exampleHttp exampleHttps
    (Telemetry.ofIntegral (some "temp") 25)
    (arrayOf [Telemetry.ofIntegral (some "a") 1, Telemetry.ofBool (some "b") true]) 2 true
    (by decide) (by decide) (by decide) (by decide) (by decide) (by decide) (by decide)
    (by decide)

/-! ## C2 : a text that does not fit is not sent -/

/-- C2. On both clients, when the JSON text of the document that a single-value send
(`sendKeyval`) or a batched send (`sendDataArray`) builds, plus one terminator byte, exceeds
`TB_PAYLOAD_SIZE`, the call returns `false` and hands nothing to the transport. -/
theorem C2_oversized_text_not_sent {Doc : Type} (J : JsonLibrary Doc) (transport : Transport)
    (h : ThingsBoardHttpSized) (s : ThingsBoardHttpsSized) (t : Telemetry)
    (data : Nat → Telemetry) (data_count : Nat) (telemetry : Bool) :
    (TB_PAYLOAD_SIZE < measureJson J (keyvalDoc J t).2 + 1 →
      ((h.sendKeyval J transport t telemetry).ret = false ∧
        (h.sendKeyval J transport t telemetry).sent = []) ∧
      ((s.sendKeyval J transport t telemetry).ret = false ∧
        (s.sendKeyval J transport t telemetry).sent = [])) ∧
    (TB_PAYLOAD_SIZE < measureJson J (arrayDoc J data data_count).2 + 1 →
      ((h.sendDataArray J transport data data_count telemetry).ret = false ∧
        (h.sendDataArray J transport data data_count telemetry).sent = []) ∧
      ((s.sendDataArray J transport data data_count telemetry).ret = false ∧
        (s.sendDataArray J transport data data_count telemetry).sent = [])) := by
  constructor
  · intro hbig
    have hnf : ¬ measureJson J (keyvalDoc J t).2 ≤ TB_PAYLOAD_SIZE - 1 := by
      unfold TB_PAYLOAD_SIZE at *; omega
    constructor
    · rcases h.sendKeyval_local_or_transport J transport t telemetry with
        ⟨_, hr⟩ | ⟨_, hfit, _⟩
      · exact hr
      · exact absurd hfit hnf
    · rcases s.sendKeyval_local_or_transport_tls J transport t telemetry with
        ⟨_, hr⟩ | ⟨_, hfit, _⟩
      · exact hr
      · exact absurd hfit hnf
  · intro hbig
    have hnf : ¬ measureJson J (arrayDoc J data data_count).2 ≤ TB_PAYLOAD_SIZE - 1 := by
      unfold TB_PAYLOAD_SIZE at *; omega
    constructor
    · rcases h.sendDataArray_local_or_transport J transport data data_count telemetry with
        ⟨_, hr⟩ | ⟨_, _, hfit, _⟩
      · exact hr
      · exact absurd hfit hnf
    · rcases s.sendDataArray_local_or_transport_tls J transport data data_count telemetry with
        ⟨_, hr⟩ | ⟨_, _, hfit, _⟩
      · exact hr
      · exact absurd hfit hnf

/-- C2 at a concrete input: a string of 60 bytes under the key `k`, alone and in a batch, on
the example clients with a transport that would answer 200. -/
theorem C2_oversized_text_not_sent_witness :
    (((exampleHttp.sendKeyval (refJson noFloat) always200
          (Telemetry.ofStr (some "k") longValue) true).ret = false ∧
        (exampleHttp.sendKeyval (refJson noFloat) always200
          (Telemetry.ofStr (some "k") longValue) true).sent = []) ∧
      ((exampleHttps.sendKeyval (refJson noFloat) always200
          (Telemetry.ofStr (some "k") longValue) true).ret = false ∧
        (exampleHttps.sendKeyval (refJson noFloat) always200
          (Telemetry.ofStr (some "k") longValue) true).sent = [])) ∧
    (((exampleHttp.sendDataArray (refJson noFloat) always200
          (arrayOf [Telemetry.ofStr (some "k") longValue]) 1 true).ret = false ∧
        (exampleHttp.sendDataArray (refJson noFloat) always200
          (arrayOf [Telemetry.ofStr (some "k") longValue]) 1 true).sent = []) ∧
      ((exampleHttps.sendDataArray (refJson noFloat) always200
          (arrayOf [Telemetry.ofStr (some "k") longValue]) 1 true).ret = false ∧
        (exampleHttps.sendDataArray (refJson noFloat) always200
          (arrayOf [Telemetry.ofStr (some "k") longValue]) 1 true).sent = [])) :=
  ⟨(C2_oversized_text_not_sent (refJson noFloat) always200 exampleHttp exampleHttps
      (Telemetry.ofStr (some "k") longValue)
      (arrayOf [Telemetry.ofStr (some "k") longValue]) 1 true).1 (by decide),
   (C2_oversized_text_not_sent (refJson noFloat) always200 exampleHttp exampleHttps
      (Telemetry.ofStr (some "k") longValue)
      (arrayOf [Telemetry.ofStr (some "k") longValue]) 1 true).2 (by decide)⟩

/-! ## C3 : a batch with too many records -/

/-- C3. On both clients, for every record array and every count above `TB_FIELDS_AMT`,
`sendTelemetry` and `sendAttributes` return `false` and hand nothing to the transport; the
outcome is the same whatever the array holds, so no record is read. -/
theorem C3_count_above_capacity {Doc : Type} (J : JsonLibrary Doc) (transport : Transport)
    (h : ThingsBoardHttpSized) (s : ThingsBoardHttpsSized) (data other : Nat → Telemetry)
    (data_count : Nat) (hCount : TB_FIELDS_AMT < data_count) :
    (h.sendTelemetry J transport data data_count
        = { ret := false, logged := ["too much JSON fields passed"], sent := [] } ∧
      h.sendAttributes J transport data data_count
        = { ret := false, logged := ["too much JSON fields passed"], sent := [] } ∧
      s.sendTelemetry J transport data data_count
        = { ret := false, logged := ["too much JSON fields passed"], sent := [] } ∧
      s.sendAttributes J transport data data_count
        = { ret := false, logged := ["too much JSON fields passed"], sent := [] }) ∧
    (h.sendTelemetry J transport data data_count
        = h.sendTelemetry J transport other data_count ∧
      h.sendAttributes J transport data data_count
        = h.sendAttributes J transport other data_count ∧
      s.sendTelemetry J transport data data_count
        = s.sendTelemetry J transport other data_count ∧
      s.sendAttributes J transport data data_count
        = s.sendAttributes J transport other data_count) := by
  have e1 : ∀ (d : Nat → Telemetry) (b : Bool), h.sendDataArray J transport d data_count b
      = { ret := false, logged := ["too much JSON fields passed"], sent := [] } := by
    intro d b
    unfold ThingsBoardHttpSized.sendDataArray
    exact if_pos hCount
  have e2 : ∀ (d : Nat → Telemetry) (b : Bool), s.sendDataArray J transport d data_count b
      = { ret := false, logged := ["too much JSON fields passed"], sent := [] } := by
    intro d b
    unfold ThingsBoardHttpsSized.sendDataArray
    exact if_pos hCount
  unfold ThingsBoardHttpSized.sendTelemetry ThingsBoardHttpSized.sendAttributes
    ThingsBoardHttpsSized.sendTelemetry ThingsBoardHttpsSized.sendAttributes
  refine ⟨⟨e1 _ _, e1 _ _, e2 _ _, e2 _ _⟩, ?_, ?_, ?_, ?_⟩
  · rw [e1, e1]
  · rw [e1, e1]
  · rw [e2, e2]
  · rw [e2, e2]

/-- C3 at a concrete input: a count of nine, on the example clients. -/
theorem C3_count_above_capacity_witness :
    (exampleHttp.sendTelemetry (refJson noFloat) always200
        (arrayOf [Telemetry.ofIntegral (some "a") 1]) 9
        = { ret := false, logged := ["too much JSON fields passed"], sent := [] } ∧
      exampleHttp.sendAttributes (refJson noFloat) always200
        (arrayOf [Telemetry.ofIntegral (some "a") 1]) 9
        = { ret := false, logged := ["too much JSON fields passed"], sent := [] } ∧
      exampleHttps.sendTelemetry (refJson noFloat) always200
        (arrayOf [Telemetry.ofIntegral (some "a") 1]) 9
        = { ret := false, logged := ["too much JSON fields passed"], sent := [] } ∧
      exampleHttps.sendAttributes (refJson noFloat) always200
        (arrayOf [Telemetry.ofIntegral (some "a") 1]) 9
        = { ret := false, logged := ["too much JSON fields passed"], sent := [] }) ∧
    (exampleHttp.sendTelemetry (refJson noFloat) always200
        (arrayOf [Telemetry.ofIntegral (some "a") 1]) 9
        = exampleHttp.sendTelemetry (refJson noFloat) always200 (arrayOf []) 9 ∧
      exampleHttp.sendAttributes (refJson noFloat) always200
        (arrayOf [Telemetry.ofIntegral (some "a") 1]) 9
        = exampleHttp.sendAttributes (refJson noFloat) always200 (arrayOf []) 9 ∧
      exampleHttps.sendTelemetry (refJson noFloat) always200
        (arrayOf [Telemetry.ofIntegral (some "a") 1]) 9
        = exampleHttps.sendTelemetry (refJson noFloat) always200 (arrayOf []) 9 ∧
      exampleHttps.sendAttributes (refJson noFloat) always200
        (arrayOf [Telemetry.ofIntegral (some "a") 1]) 9
        = exampleHttps.sendAttributes (refJson noFloat) always200 (arrayOf []) 9) :=
  C3_count_above_capacity (refJson noFloat) always200 exampleHttp exampleHttps
    (arrayOf [Telemetry.ofIntegral (some "a") 1]) (arrayOf []) 9 (by decide)

/-! ## C4 : the access token -/

/-- Every public send method of the HTTP client is `sendKeyval` or `sendDataArray`. -/
theorem ThingsBoardHttpSized.call_eq {Doc : Type} (J : JsonLibrary Doc) (transport : Transport)
    (c : ThingsBoardHttpSized) (k : SendCall) :
    (∃ t, c.call J transport k = c.sendKeyval J transport t k.isTelemetry ∧
      c.call J transport k.toAttribute = c.sendKeyval J transport t false) ∨
    (∃ d n, c.call J transport k = c.sendDataArray J transport d n k.isTelemetry ∧
      c.call J transport k.toAttribute = c.sendDataArray J transport d n false) := by
  cases k
  case telemetry d n => exact Or.inr ⟨d, n, rfl, rfl⟩
  case attributes d n => exact Or.inr ⟨d, n, rfl, rfl⟩
  all_goals exact Or.inl ⟨_, rfl, rfl⟩

/-- Every public send method of the HTTPS client is `sendKeyval` or `sendDataArray`. -/
theorem ThingsBoardHttpsSized.call_eq_tls {Doc : Type} (J : JsonLibrary Doc)
    (transport : Transport) (c : ThingsBoardHttpsSized) (k : SendCall) :
    (∃ t, c.call J transport k = c.sendKeyval J transport t k.isTelemetry ∧
      c.call J transport k.toAttribute = c.sendKeyval J transport t false) ∨
    (∃ d n, c.call J transport k = c.sendDataArray J transport d n k.isTelemetry ∧
      c.call J transport k.toAttribute = c.sendDataArray J transport d n false) := by
  cases k
  case telemetry d n => exact Or.inr ⟨d, n, rfl, rfl⟩
  case attributes d n => exact Or.inr ⟨d, n, rfl, rfl⟩
  all_goals exact Or.inl ⟨_, rfl, rfl⟩

/-- A send of the HTTP client that hands something to the transport has a token. -/
theorem ThingsBoardHttpSized.call_unsent_of_token_none {Doc : Type} (J : JsonLibrary Doc)
    (transport : Transport) (c : ThingsBoardHttpSized) (k : SendCall)
    (hToken : c.m_Token = none) :
    (c.call J transport k).ret = false ∧ (c.call J transport k).sent = [] := by
  rcases c.call_eq J transport k with ⟨t, he, _⟩ | ⟨d, n, he, _⟩
  · rw [he]
    rcases c.sendKeyval_local_or_transport J transport t k.isTelemetry with
      ⟨_, hr⟩ | ⟨_, _, hj⟩
    · exact hr
    · rw [hj, c.json_of_token_none transport _ _ hToken]
      exact ⟨rfl, rfl⟩
  · rw [he]
    rcases c.sendDataArray_local_or_transport J transport d n k.isTelemetry with
      ⟨_, hr⟩ | ⟨_, _, _, hj⟩
    · exact hr
    · rw [hj, c.json_of_token_none transport _ _ hToken]
      exact ⟨rfl, rfl⟩

/-- A send of the HTTPS client without a token or without a socket fails locally. -/
theorem ThingsBoardHttpsSized.call_unsent_of_not_ready {Doc : Type} (J : JsonLibrary Doc)
    (transport : Transport) (c : ThingsBoardHttpsSized) (k : SendCall)
    (hNot : c.m_Token = none ∨ c.m_Socket = none) :
    (c.call J transport k).ret = false ∧ (c.call J transport k).sent = [] := by
  have hj : ∀ json b, c.sendTelemetryOrAttributeJson transport json b
      = { ret := false, logged := [], sent := [] } := by
    intro json b
    rcases hNot with hn | hn
    · exact c.json_of_token_none_tls transport json b hn
    · exact c.json_of_socket_none transport json b hn
  rcases c.call_eq_tls J transport k with ⟨t, he, _⟩ | ⟨d, n, he, _⟩
  · rw [he]
    rcases c.sendKeyval_local_or_transport_tls J transport t k.isTelemetry with
      ⟨_, hr⟩ | ⟨_, _, hs⟩
    · exact hr
    · rw [hs, hj]
      exact ⟨rfl, rfl⟩
  · rw [he]
    rcases c.sendDataArray_local_or_transport_tls J transport d n k.isTelemetry with
      ⟨_, hr⟩ | ⟨_, _, _, hs⟩
    · exact hr
    · rw [hs, hj]
      exact ⟨rfl, rfl⟩

/-- C4, as the code has it. For every send call on a client whose access token is null, on
both clients, the call returns `false` and hands nothing to the transport. -/
theorem C4_null_token_not_sent {Doc : Type} (J : JsonLibrary Doc) (transport : Transport)
    (h : ThingsBoardHttpSized) (s : ThingsBoardHttpsSized) (k : SendCall)
    (hTokenHttp : h.m_Token = none) (hTokenHttps : s.m_Token = none) :
    ((h.call J transport k).ret = false ∧ (h.call J transport k).sent = []) ∧
    ((s.call J transport k).ret = false ∧ (s.call J transport k).sent = []) :=
  ⟨h.call_unsent_of_token_none J transport k hTokenHttp,
   s.call_unsent_of_not_ready J transport k (Or.inl hTokenHttps)⟩

/-- C4 at a concrete input: the example clients with the token set to null, sending
`temp = 25` to a transport that would answer 200. -/
theorem C4_null_token_not_sent_witness :
    ((({ exampleHttp with m_Token := none } : ThingsBoardHttpSized).call (refJson noFloat)
          always200 (.telemetryInt (some "temp") 25)).ret = false ∧
      (({ exampleHttp with m_Token := none } : ThingsBoardHttpSized).call (refJson noFloat)
          always200 (.telemetryInt (some "temp") 25)).sent = []) ∧
    ((({ exampleHttps with m_Token := none } : ThingsBoardHttpsSized).call (refJson noFloat)
          always200 (.telemetryInt (some "temp") 25)).ret = false ∧
      (({ exampleHttps with m_Token := none } : ThingsBoardHttpsSized).call (refJson noFloat)
          always200 (.telemetryInt (some "temp") 25)).sent = []) :=
  C4_null_token_not_sent (refJson noFloat) always200 { exampleHttp with m_Token := none }
    { exampleHttps with m_Token := none } (.telemetryInt (some "temp") 25) rfl rfl

/-- C4 as stated fails for the empty token: with the token `""`, which is not null, both
clients hand the request to the transport (the URL has an empty token segment) and return
`true` on status 200. -/
theorem C4_empty_token_is_sent :
    ({ exampleHttp with m_Token := some "" } : ThingsBoardHttpSized).m_Token = some "" ∧
    ({ exampleHttp with m_Token := some "" } : ThingsBoardHttpSized).call (refJson noFloat)
        always200 (.telemetryInt (some "temp") 25)
      = { ret := true, logged := [],
          sent := [{ socket := some ⟨1⟩, method := HttpMethod.HTTP_POST,
                     url := "http://demo.thingsboard.io:8080/api/v1//telemetry",
                     headers := [("Content-Type", "application/json")],
                     body := "\x7b\"temp\":25\x7d" }] } ∧
    ({ exampleHttps with m_Token := some "" } : ThingsBoardHttpsSized).call (refJson noFloat)
        always200 (.telemetryInt (some "temp") 25)
      = { ret := true, logged := [],
          sent := [{ socket := some ⟨2⟩, method := HttpMethod.HTTP_POST,
                     url := "https://demo.thingsboard.io:443/api/v1//telemetry",
                     headers := [("Content-Type", "application/json")],
                     body := "\x7b\"temp\":25\x7d" }] } := by
  decide

/-! ## C9 : the socket of the HTTPS client -/

/-- C9. On the HTTPS client: after `begin(token, host, port)` without a socket, and whenever
the socket field is null, every send call returns `false` and hands nothing to the
transport; `setSocket(s)` with a socket `s` leaves the token, the host, the port and the
logger as they were; and after it a well-formed send (token not null, count at most
`TB_FIELDS_AMT`, the document serialized and its text within the buffer) hands one request
to the transport, on the socket `s`. -/
theorem C9_socket_gate {Doc : Type} (J : JsonLibrary Doc) (transport : Transport)
    (c : ThingsBoardHttpsSized) (access_token : Option String) (host : String) (port : Int)
    (logger : ThingsBoardLogger) (socket : Socket) (k : SendCall) (t : Telemetry)
    (data : Nat → Telemetry) (data_count : Nat) (telemetry : Bool) :
    (((c.beginNoSocket access_token host port logger).call J transport k).ret = false ∧
      ((c.beginNoSocket access_token host port logger).call J transport k).sent = []) ∧
    (c.m_Socket = none →
      (c.call J transport k).ret = false ∧ (c.call J transport k).sent = []) ∧
    ((c.setSocket (some socket)).m_Socket = some socket ∧
      (c.setSocket (some socket)).m_Token = c.m_Token ∧
      (c.setSocket (some socket)).m_Host = c.m_Host ∧
      (c.setSocket (some socket)).m_Port = c.m_Port ∧
      (c.setSocket (some socket)).m_Logger = c.m_Logger) ∧
    (c.m_Token ≠ none → (keyvalDoc J t).1 = true →
      measureJson J (keyvalDoc J t).2 + 1 ≤ TB_PAYLOAD_SIZE →
      ∃ r, ((c.setSocket (some socket)).sendKeyval J transport t telemetry).sent = [r] ∧
        r.socket = some socket) ∧
    (c.m_Token ≠ none → data_count ≤ TB_FIELDS_AMT → (arrayDoc J data data_count).1 = true →
      measureJson J (arrayDoc J data data_count).2 + 1 ≤ TB_PAYLOAD_SIZE →
      ∃ r, ((c.setSocket (some socket)).sendDataArray J transport data data_count
          telemetry).sent = [r] ∧ r.socket = some socket) := by
  refine ⟨?_, ?_, ⟨rfl, rfl, rfl, rfl, rfl⟩, ?_, ?_⟩
  · exact ThingsBoardHttpsSized.call_unsent_of_not_ready J transport _ k (Or.inr rfl)
  · intro hs
    exact c.call_unsent_of_not_ready J transport k (Or.inr hs)
  · intro hTok hKeyval hFits
    have hnb : ¬ TB_PAYLOAD_SIZE - 1 < measureJson J (keyvalDoc J t).2 := by
      unfold TB_PAYLOAD_SIZE at *; omega
    have hnf : ¬ (keyvalDoc J t).1 = false := by rw [hKeyval]; exact Bool.noConfusion
    rcases (c.setSocket (some socket)).sendKeyval_local_or_transport_tls J transport t telemetry
      with ⟨hl, _⟩ | ⟨_, _, he⟩
    · rcases hl with hl | hl
      · exact absurd hl hnf
      · exact absurd hl hnb
    · rw [he]
      rcases (c.setSocket (some socket)).json_ret_sent_tls transport
          (J.render (keyvalDoc J t).2) telemetry with ⟨hn, _⟩ | ⟨_, sock, r, _, hsock, hs, _, hrs, _⟩
      · rcases hn with hn | hn
        · exact absurd hn hTok
        · exact Option.noConfusion hn
      · refine ⟨r, hs, ?_⟩
        rw [hrs]
        exact hsock.symm
  · intro hTok hCount hArray hFits
    have hnb : ¬ TB_PAYLOAD_SIZE - 1 < measureJson J (arrayDoc J data data_count).2 := by
      unfold TB_PAYLOAD_SIZE at *; omega
    have hnf : ¬ (arrayDoc J data data_count).1 = false := by
      rw [hArray]; exact Bool.noConfusion
    rcases (c.setSocket (some socket)).sendDataArray_local_or_transport_tls J transport data
      data_count telemetry with ⟨hl, _⟩ | ⟨_, _, _, he⟩
    · rcases hl with hl | hl | hl
      · exact absurd hCount (Nat.not_le_of_lt hl)
      · exact absurd hl hnf
      · exact absurd hl hnb
    · rw [he]
      rcases (c.setSocket (some socket)).json_ret_sent_tls transport
          (J.render (arrayDoc J data data_count).2) telemetry with
        ⟨hn, _⟩ | ⟨_, sock, r, _, hsock, hs, _, hrs, _⟩
      · rcases hn with hn | hn
        · exact absurd hn hTok
        · exact Option.noConfusion hn
      · refine ⟨r, hs, ?_⟩
        rw [hrs]
        exact hsock.symm

/-- C9 at a concrete input: the example HTTPS client configured again without a socket,
then given the socket 7, sending `temp = 25` and a batch of two records. -/
theorem C9_socket_gate_witness :
    ((exampleHttps.beginNoSocket (some "TOKEN") "demo.thingsboard.io" 443 ⟨0⟩).m_Socket = none ∧
      ((exampleHttps.beginNoSocket (some "TOKEN") "demo.thingsboard.io" 443 ⟨0⟩).call
        (refJson noFloat) always200 (.telemetryInt (some "temp") 25)).ret = false ∧
      ((exampleHttps.beginNoSocket (some "TOKEN") "demo.thingsboard.io" 443 ⟨0⟩).call
        (refJson noFloat) always200 (.telemetryInt (some "temp") 25)).sent = []) ∧
    (∃ r, (((exampleHttps.beginNoSocket (some "TOKEN") "demo.thingsboard.io" 443 ⟨0⟩).setSocket
        (some ⟨7⟩)).sendKeyval (refJson noFloat) always200
          (Telemetry.ofIntegral (some "temp") 25) true).sent = [r] ∧
      r.socket = some ⟨7⟩) ∧
    (∃ r, (((exampleHttps.beginNoSocket (some "TOKEN") "demo.thingsboard.io" 443 ⟨0⟩).setSocket
        (some ⟨7⟩)).sendDataArray (refJson noFloat) always200
          (arrayOf [Telemetry.ofIntegral (some "a") 1, Telemetry.ofBool (some "b") true]) 2
          true).sent = [r] ∧
      r.socket = some ⟨7⟩) :=
  ⟨⟨rfl,
    (C9_socket_gate (refJson noFloat) always200
      (exampleHttps.beginNoSocket (some "TOKEN") "demo.thingsboard.io" 443 ⟨0⟩)
      (some "TOKEN") "demo.thingsboard.io" 443 ⟨0⟩ ⟨7⟩ (.telemetryInt (some "temp") 25)
      (Telemetry.ofIntegral (some "temp") 25)
      (arrayOf [Telemetry.ofIntegral (some "a") 1, Telemetry.ofBool (some "b") true]) 2
      true).2.1 rfl⟩,
   (C9_socket_gate (refJson noFloat) always200
      (exampleHttps.beginNoSocket (some "TOKEN") "demo.thingsboard.io" 443 ⟨0⟩)
      (some "TOKEN") "demo.thingsboard.io" 443 ⟨0⟩ ⟨7⟩ (.telemetryInt (some "temp") 25)
      (Telemetry.ofIntegral (some "temp") 25)
      (arrayOf [Telemetry.ofIntegral (some "a") 1, Telemetry.ofBool (some "b") true]) 2
      true).2.2.2.1 (by decide) (by decide) (by decide),
   (C9_socket_gate (refJson noFloat) always200
      (exampleHttps.beginNoSocket (some "TOKEN") "demo.thingsboard.io" 443 ⟨0⟩)
      (some "TOKEN") "demo.thingsboard.io" 443 ⟨0⟩ ⟨7⟩ (.telemetryInt (some "temp") 25)
      (Telemetry.ofIntegral (some "temp") 25)
      (arrayOf [Telemetry.ofIntegral (some "a") 1, Telemetry.ofBool (some "b") true]) 2
      true).2.2.2.2 (by decide) (by decide) (by decide) (by decide)⟩

/-! ## C10 : the body is the whole text -/

/-- The body of every request of the HTTP transport step is the text it was given. -/
theorem ThingsBoardHttpSized.json_body (transport : Transport) (c : ThingsBoardHttpSized)
    (json : String) (telemetry : Bool) :
    ∀ r ∈ (c.sendTelemetryOrAttributeJson transport (some json) telemetry).sent,
      r.body = json := by
  intro r hr
  rcases c.json_ret_sent transport json telemetry with ⟨_, _, hs⟩ | ⟨_, r', _, hs, _, _, hb, _⟩
  · rw [hs] at hr; cases hr
  · rw [hs] at hr
    rw [List.mem_singleton.mp hr]
    exact hb

/-- The body of every request of the HTTPS transport step is the text it was given. -/
theorem ThingsBoardHttpsSized.json_body_tls (transport : Transport) (c : ThingsBoardHttpsSized)
    (json : String) (telemetry : Bool) :
    ∀ r ∈ (c.sendTelemetryOrAttributeJson transport (some json) telemetry).sent,
      r.body = json := by
  intro r hr
  rcases c.json_ret_sent_tls transport json telemetry with
    ⟨_, _, hs⟩ | ⟨_, _, r', _, _, hs, _, _, hb, _⟩
  · rw [hs] at hr; cases hr
  · rw [hs] at hr
    rw [List.mem_singleton.mp hr]
    exact hb

/-- What the size check gives for a body that is the whole text. -/
theorem body_bounds {Doc : Type} (J : JsonLibrary Doc) (doc : Doc) (body : String)
    (hb : body = J.render doc) (hfit : measureJson J doc ≤ TB_PAYLOAD_SIZE - 1) :
    body = J.render doc ∧ body.length = measureJson J doc ∧
      body.length ≤ TB_PAYLOAD_SIZE - 1 ∧ body.length + 1 ≤ TB_PAYLOAD_SIZE := by
  subst hb
  refine ⟨rfl, rfl, hfit, ?_⟩
  unfold measureJson TB_PAYLOAD_SIZE at *
  omega

/-- The body of a request of the HTTP batched send is the text of the document. -/
theorem http_array_body {Doc : Type} (J : JsonLibrary Doc) (transport : Transport)
    (h : ThingsBoardHttpSized) (data : Nat → Telemetry) (data_count : Nat) (telemetry : Bool) :
    ∀ r ∈ (h.sendDataArray J transport data data_count telemetry).sent,
      r.body = J.render (arrayDoc J data data_count).2 := by
  intro r hr
  rcases h.sendDataArray_local_or_transport J transport data data_count telemetry with
    ⟨_, _, hs⟩ | ⟨_, _, _, he⟩
  · rw [hs] at hr; cases hr
  · rw [he] at hr
    exact h.json_body transport _ telemetry r hr

/-- The body of a request of the HTTPS batched send is the text of the document. -/
theorem https_array_body {Doc : Type} (J : JsonLibrary Doc) (transport : Transport)
    (s : ThingsBoardHttpsSized) (data : Nat → Telemetry) (data_count : Nat) (telemetry : Bool) :
    ∀ r ∈ (s.sendDataArray J transport data data_count telemetry).sent,
      r.body = J.render (arrayDoc J data data_count).2 := by
  intro r hr
  rcases s.sendDataArray_local_or_transport_tls J transport data data_count telemetry with
    ⟨_, _, hs⟩ | ⟨_, _, _, he⟩
  · rw [hs] at hr; cases hr
  · rw [he] at hr
    exact s.json_body_tls transport _ telemetry r hr

/-- C10. On both clients, every request that a single-value or a batched send hands to the
transport has as body the complete JSON text of the document; the length of the body is
the measured length, it is at most `TB_PAYLOAD_SIZE - 1`, and with its terminator it fits
in the `TB_PAYLOAD_SIZE` bytes of the buffer. -/
theorem C10_body_is_whole_text {Doc : Type} (J : JsonLibrary Doc) (transport : Transport)
    (h : ThingsBoardHttpSized) (s : ThingsBoardHttpsSized) (t : Telemetry)
    (data : Nat → Telemetry) (data_count : Nat) (telemetry : Bool) :
    (∀ r ∈ (h.sendKeyval J transport t telemetry).sent,
      r.body = J.render (keyvalDoc J t).2 ∧
      r.body.length = measureJson J (keyvalDoc J t).2 ∧
      r.body.length ≤ TB_PAYLOAD_SIZE - 1 ∧ r.body.length + 1 ≤ TB_PAYLOAD_SIZE) ∧
    (∀ r ∈ (h.sendDataArray J transport data data_count telemetry).sent,
      r.body = J.render (arrayDoc J data data_count).2 ∧
      r.body.length = measureJson J (arrayDoc J data data_count).2 ∧
      r.body.length ≤ TB_PAYLOAD_SIZE - 1 ∧ r.body.length + 1 ≤ TB_PAYLOAD_SIZE) ∧
    (∀ r ∈ (s.sendKeyval J transport t telemetry).sent,
      r.body = J.render (keyvalDoc J t).2 ∧
      r.body.length = measureJson J (keyvalDoc J t).2 ∧
      r.body.length ≤ TB_PAYLOAD_SIZE - 1 ∧ r.body.length + 1 ≤ TB_PAYLOAD_SIZE) ∧
    (∀ r ∈ (s.sendDataArray J transport data data_count telemetry).sent,
      r.body = J.render (arrayDoc J data data_count).2 ∧
      r.body.length = measureJson J (arrayDoc J data data_count).2 ∧
      r.body.length ≤ TB_PAYLOAD_SIZE - 1 ∧ r.body.length + 1 ≤ TB_PAYLOAD_SIZE) := by
  refine ⟨?_, ?_, ?_, ?_⟩
  · intro r hr
    rcases h.sendKeyval_local_or_transport J transport t telemetry with
      ⟨_, _, hs⟩ | ⟨_, hfit, he⟩
    · rw [hs] at hr; cases hr
    · rw [he] at hr
      exact body_bounds J _ _ (h.json_body transport _ telemetry r hr) hfit
  · intro r hr
    rcases h.sendDataArray_local_or_transport J transport data data_count telemetry with
      ⟨_, _, hs⟩ | ⟨_, _, hfit, he⟩
    · rw [hs] at hr; cases hr
    · rw [he] at hr
      exact body_bounds J _ _ (h.json_body transport _ telemetry r hr) hfit
  · intro r hr
    rcases s.sendKeyval_local_or_transport_tls J transport t telemetry with
      ⟨_, _, hs⟩ | ⟨_, hfit, he⟩
    · rw [hs] at hr; cases hr
    · rw [he] at hr
      exact body_bounds J _ _ (s.json_body_tls transport _ telemetry r hr) hfit
  · intro r hr
    rcases s.sendDataArray_local_or_transport_tls J transport data data_count telemetry with
      ⟨_, _, hs⟩ | ⟨_, _, hfit, he⟩
    · rw [hs] at hr; cases hr
    · rw [he] at hr
      exact body_bounds J _ _ (s.json_body_tls transport _ telemetry r hr) hfit

/-- C10 at a concrete input: the one request of `sendTelemetryInt("temp", 25)` on the example
HTTP client carries the 11 bytes of the whole text. -/
theorem C10_body_is_whole_text_witness :
    (exampleHttp.sendKeyval (refJson noFloat) always200
        (Telemetry.ofIntegral (some "temp") 25) true).sent
      = [{ socket := some ⟨1⟩, method := HttpMethod.HTTP_POST,
           url := "http://demo.thingsboard.io:8080/api/v1/TOKEN/telemetry",
           headers := [("Content-Type", "application/json")],
           body := "\x7b\"temp\":25\x7d" }] ∧
    ("\x7b\"temp\":25\x7d"
        = (refJson noFloat).render
            (keyvalDoc (refJson noFloat) (Telemetry.ofIntegral (some "temp") 25)).2 ∧
      "\x7b\"temp\":25\x7d".length
        = measureJson (refJson noFloat)
            (keyvalDoc (refJson noFloat) (Telemetry.ofIntegral (some "temp") 25)).2 ∧
      "\x7b\"temp\":25\x7d".length ≤ TB_PAYLOAD_SIZE - 1 ∧
      "\x7b\"temp\":25\x7d".length + 1 ≤ TB_PAYLOAD_SIZE) :=
  ⟨by decide,
   (C10_body_is_whole_text (refJson noFloat) always200 exampleHttp exampleHttps
      (Telemetry.ofIntegral (some "temp") 25) (arrayOf []) 0 true).1
      { socket := some ⟨1⟩, method := HttpMethod.HTTP_POST,
        url := "http://demo.thingsboard.io:8080/api/v1/TOKEN/telemetry",
        headers := [("Content-Type", "application/json")],
        body := "\x7b\"temp\":25\x7d" } (by decide)⟩

/-! ## C7 : the URL of the request -/

/-- The URL that the code concatenates is the URL of the scheme, host, port, token and
segment. -/
theorem url_eq_requestUrl (scheme host : String) (port : Int) (token : String)
    (telemetry : Bool) :
    scheme ++ "://" ++ host ++ ":" ++ to_string port ++ "/api/v1/" ++ token
        ++ (if telemetry then "/telemetry" else "/attributes")
      = requestUrl scheme host port token (if telemetry then "telemetry" else "attributes") := by
  unfold requestUrl
  cases telemetry
  · rw [String.append_assoc _ "/" _]; rfl
  · rw [String.append_assoc _ "/" _]; rfl

/-- The requests of the HTTP transport step. -/
theorem ThingsBoardHttpSized.json_sent (transport : Transport) (c : ThingsBoardHttpSized)
    (json : String) (telemetry : Bool) (tok : String) (h : c.m_Token = some tok) :
    (c.sendTelemetryOrAttributeJson transport (some json) telemetry).sent
      = [{ socket := c.m_Socket, method := HttpMethod.HTTP_POST,
           url := requestUrl "http" c.m_Host c.m_Port tok
             (if telemetry then "telemetry" else "attributes"),
           headers := [("Content-Type", "application/json")], body := json }] := by
  rw [← url_eq_requestUrl]
  unfold sendTelemetryOrAttributeJson
  rw [h]
  rfl

/-- The requests of the HTTPS transport step: none without a socket, else one. -/
theorem ThingsBoardHttpsSized.json_sent_tls (transport : Transport) (c : ThingsBoardHttpsSized)
    (json : String) (telemetry : Bool) (tok : String) (h : c.m_Token = some tok) :
    (c.sendTelemetryOrAttributeJson transport (some json) telemetry).sent
      = (c.m_Socket.toList.map (fun _ => json)).map (fun b =>
          { socket := c.m_Socket, method := HttpMethod.HTTP_POST,
            url := requestUrl "https" c.m_Host c.m_Port tok
              (if telemetry then "telemetry" else "attributes"),
            headers := [("Content-Type", "application/json")], body := b }) := by
  rw [← url_eq_requestUrl]
  unfold sendTelemetryOrAttributeJson
  rw [h]
  cases c.m_Socket <;> rfl

/-- The requests of an HTTP send, for either value of the `telemetry` flag. -/
theorem ThingsBoardHttpSized.sent_of_flag {Doc : Type} (J : JsonLibrary Doc)
    (transport : Transport) (c : ThingsBoardHttpSized) (k : SendCall) (tok : String)
    (h : c.m_Token = some tok) :
    ∃ bodies : List String,
      (c.call J transport k).sent = bodies.map (fun b =>
        { socket := c.m_Socket, method := HttpMethod.HTTP_POST,
          url := requestUrl "http" c.m_Host c.m_Port tok k.segment,
          headers := [("Content-Type", "application/json")], body := b }) ∧
      (c.call J transport k.toAttribute).sent = bodies.map (fun b =>
        { socket := c.m_Socket, method := HttpMethod.HTTP_POST,
          url := requestUrl "http" c.m_Host c.m_Port tok "attributes",
          headers := [("Content-Type", "application/json")], body := b }) := by
  unfold SendCall.segment
  rcases c.call_eq J transport k with ⟨t, he, ha⟩ | ⟨d, n, he, ha⟩
  · rw [he, ha]
    rcases c.sendKeyval_local_or_transport J transport t k.isTelemetry with
      ⟨hl, _, hs⟩ | ⟨hf, hfit, hj⟩
    · rcases c.sendKeyval_local_or_transport J transport t false with
        ⟨_, _, hs'⟩ | ⟨hf', hfit', _⟩
      · exact ⟨[], by rw [hs]; rfl, by rw [hs']; rfl⟩
      · rcases hl with hl | hl
        · rw [hf'] at hl; cases hl
        · exact absurd hfit' (Nat.not_le_of_lt hl)
    · rcases c.sendKeyval_local_or_transport J transport t false with
        ⟨hl, _⟩ | ⟨_, _, hj'⟩
      · rcases hl with hl | hl
        · rw [hf] at hl; cases hl
        · exact absurd hfit (Nat.not_le_of_lt hl)
      · refine ⟨[J.render (keyvalDoc J t).2], ?_, ?_⟩
        · rw [hj, c.json_sent transport _ _ tok h]; rfl
        · rw [hj', c.json_sent transport _ _ tok h]; rfl
  · rw [he, ha]
    rcases c.sendDataArray_local_or_transport J transport d n k.isTelemetry with
      ⟨hl, _, hs⟩ | ⟨hc, hf, hfit, hj⟩
    · rcases c.sendDataArray_local_or_transport J transport d n false with
        ⟨_, _, hs'⟩ | ⟨hc', hf', hfit', _⟩
      · exact ⟨[], by rw [hs]; rfl, by rw [hs']; rfl⟩
      · rcases hl with hl | hl | hl
        · exact absurd hc' (Nat.not_le_of_lt hl)
        · rw [hf'] at hl; cases hl
        · exact absurd hfit' (Nat.not_le_of_lt hl)
    · rcases c.sendDataArray_local_or_transport J transport d n false with
        ⟨hl, _⟩ | ⟨_, _, _, hj'⟩
      · rcases hl with hl | hl | hl
        · exact absurd hc (Nat.not_le_of_lt hl)
        · rw [hf] at hl; cases hl
        · exact absurd hfit (Nat.not_le_of_lt hl)
      · refine ⟨[J.render (arrayDoc J d n).2], ?_, ?_⟩
        · rw [hj, c.json_sent transport _ _ tok h]; rfl
        · rw [hj', c.json_sent transport _ _ tok h]; rfl

/-- The requests of an HTTPS send, for either value of the `telemetry` flag. -/
theorem ThingsBoardHttpsSized.sent_of_flag_tls {Doc : Type} (J : JsonLibrary Doc)
    (transport : Transport) (c : ThingsBoardHttpsSized) (k : SendCall) (tok : String)
    (h : c.m_Token = some tok) :
    ∃ bodies : List String,
      (c.call J transport k).sent = bodies.map (fun b =>
        { socket := c.m_Socket, method := HttpMethod.HTTP_POST,
          url := requestUrl "https" c.m_Host c.m_Port tok k.segment,
          headers := [("Content-Type", "application/json")], body := b }) ∧
      (c.call J transport k.toAttribute).sent = bodies.map (fun b =>
        { socket := c.m_Socket, method := HttpMethod.HTTP_POST,
          url := requestUrl "https" c.m_Host c.m_Port tok "attributes",
          headers := [("Content-Type", "application/json")], body := b }) := by
  unfold SendCall.segment
  rcases c.call_eq_tls J transport k with ⟨t, he, ha⟩ | ⟨d, n, he, ha⟩
  · rw [he, ha]
    rcases c.sendKeyval_local_or_transport_tls J transport t k.isTelemetry with
      ⟨hl, _, hs⟩ | ⟨hf, hfit, hj⟩
    · rcases c.sendKeyval_local_or_transport_tls J transport t false with
        ⟨_, _, hs'⟩ | ⟨hf', hfit', _⟩
      · exact ⟨[], by rw [hs]; rfl, by rw [hs']; rfl⟩
      · rcases hl with hl | hl
        · rw [hf'] at hl; cases hl
        · exact absurd hfit' (Nat.not_le_of_lt hl)
    · rcases c.sendKeyval_local_or_transport_tls J transport t false with
        ⟨hl, _⟩ | ⟨_, _, hj'⟩
      · rcases hl with hl | hl
        · rw [hf] at hl; cases hl
        · exact absurd hfit (Nat.not_le_of_lt hl)
      · refine ⟨c.m_Socket.toList.map (fun _ => J.render (keyvalDoc J t).2), ?_, ?_⟩
        · rw [hj, c.json_sent_tls transport _ _ tok h]
        · rw [hj', c.json_sent_tls transport _ _ tok h]; rfl
  · rw [he, ha]
    rcases c.sendDataArray_local_or_transport_tls J transport d n k.isTelemetry with
      ⟨hl, _, hs⟩ | ⟨hc, hf, hfit, hj⟩
    · rcases c.sendDataArray_local_or_transport_tls J transport d n false with
        ⟨_, _, hs'⟩ | ⟨hc', hf', hfit', _⟩
      · exact ⟨[], by rw [hs]; rfl, by rw [hs']; rfl⟩
      · rcases hl with hl | hl | hl
        · exact absurd hc' (Nat.not_le_of_lt hl)
        · rw [hf'] at hl; cases hl
        · exact absurd hfit' (Nat.not_le_of_lt hl)
    · rcases c.sendDataArray_local_or_transport_tls J transport d n false with
        ⟨hl, _⟩ | ⟨_, _, _, hj'⟩
      · rcases hl with hl | hl | hl
        · exact absurd hc (Nat.not_le_of_lt hl)
        · rw [hf] at hl; cases hl
        · exact absurd hfit (Nat.not_le_of_lt hl)
      · refine ⟨c.m_Socket.toList.map (fun _ => J.render (arrayDoc J d n).2), ?_, ?_⟩
        · rw [hj, c.json_sent_tls transport _ _ tok h]
        · rw [hj', c.json_sent_tls transport _ _ tok h]; rfl

/-- C7. For every client configuration with a token that is not null and every send call,
each request handed to the transport has the URL `<scheme>://<host>:<port>/api/v1/<token>/
<segment>`: the scheme is `http` on the HTTP client and `https` on the HTTPS client, the port
is the configured integer in decimal, and the segment is `telemetry` for the methods of the
telemetry API and `attributes` for those of the attribute API. The attribute method with
the same arguments sends the same requests (socket, method, headers, body) but for the
segment of the URL. -/
theorem C7_request_url {Doc : Type} (J : JsonLibrary Doc) (transport : Transport)
    (h : ThingsBoardHttpSized) (s : ThingsBoardHttpsSized) (k : SendCall)
    (tokenHttp tokenHttps : String)
    (hTokenHttp : h.m_Token = some tokenHttp) (hTokenHttps : s.m_Token = some tokenHttps) :
    (∀ r ∈ (h.call J transport k).sent,
      r.url = requestUrl "http" h.m_Host h.m_Port tokenHttp k.segment ∧
      r.method = HttpMethod.HTTP_POST) ∧
    (∀ r ∈ (s.call J transport k).sent,
      r.url = requestUrl "https" s.m_Host s.m_Port tokenHttps k.segment ∧
      r.method = HttpMethod.HTTP_POST) ∧
    (h.call J transport k.toAttribute).sent
      = (h.call J transport k).sent.map (fun r =>
          { r with url := requestUrl "http" h.m_Host h.m_Port tokenHttp "attributes" }) ∧
    (s.call J transport k.toAttribute).sent
      = (s.call J transport k).sent.map (fun r =>
          { r with url := requestUrl "https" s.m_Host s.m_Port tokenHttps "attributes" }) := by
  obtain ⟨bh, hbh, hah⟩ := h.sent_of_flag J transport k tokenHttp hTokenHttp
  obtain ⟨bs, hbs, has⟩ := s.sent_of_flag_tls J transport k tokenHttps hTokenHttps
  refine ⟨?_, ?_, ?_, ?_⟩
  · intro r hr
    rw [hbh] at hr
    obtain ⟨b, _, rfl⟩ := List.mem_map.mp hr
    exact ⟨rfl, rfl⟩
  · intro r hr
    rw [hbs] at hr
    obtain ⟨b, _, rfl⟩ := List.mem_map.mp hr
    exact ⟨rfl, rfl⟩
  · rw [hah, hbh, List.map_map]
    rfl
  · rw [has, hbs, List.map_map]
    rfl

/-- C7 at a concrete input: `sendTelemetryInt("temp", 25)` and `sendAttributeInt("temp", 25)`
on the example clients. -/
theorem C7_request_url_witness :
    (exampleHttp.call (refJson noFloat) always200 (.telemetryInt (some "temp") 25)).sent
      = [{ socket := some ⟨1⟩, method := HttpMethod.HTTP_POST,
           url := "http://demo.thingsboard.io:8080/api/v1/TOKEN/telemetry",
           headers := [("Content-Type", "application/json")],
           body := "\x7b\"temp\":25\x7d" }] ∧
    (exampleHttps.call (refJson noFloat) always200 (.attributeInt (some "temp") 25)).sent
      = [{ socket := some ⟨2⟩, method := HttpMethod.HTTP_POST,
           url := "https://demo.thingsboard.io:443/api/v1/TOKEN/attributes",
           headers := [("Content-Type", "application/json")],
           body := "\x7b\"temp\":25\x7d" }] ∧
    requestUrl "http" "demo.thingsboard.io" 8080 "TOKEN" "telemetry"
      = "http://demo.thingsboard.io:8080/api/v1/TOKEN/telemetry" ∧
    (exampleHttp.call (refJson noFloat) always200 (.attributeInt (some "temp") 25)).sent
      = (exampleHttp.call (refJson noFloat) always200 (.telemetryInt (some "temp") 25)).sent.map
          (fun r => { r with url := "http://demo.thingsboard.io:8080/api/v1/TOKEN/attributes" }) :=
  ⟨by decide, by decide, by decide,
   (C7_request_url (refJson noFloat) always200 exampleHttp exampleHttps
      (.telemetryInt (some "temp") 25) "TOKEN" "TOKEN" rfl rfl).2.2.1.trans (by decide)⟩

/-! ## C5 : the fields of a batch -/

open dataType

/-- A valid record has a field, and on the reference library its serialization is the
write of that field. -/
theorem Telemetry.field_of_valid (t : Telemetry) (hv : t.valid) :
    ∃ k v, t.m_key = some k ∧ t.field = some (k, v) ∧
      ∀ {Doc : Type} (J : JsonLibrary Doc) (d : Doc),
        t.serializeKeyval J d = (true, J.assignMember d k v) := by
  obtain ⟨hk, ht⟩ := hv
  cases hkey : t.m_key with
  | none => exact absurd hkey hk
  | some k =>
    cases htype : t.m_type with
    | TYPE_NONE => exact absurd htype ht
    | TYPE_BOOL =>
      refine ⟨k, .boolean t.m_value.asBoolean, rfl, ?_, ?_⟩
      · simp [Telemetry.field, Telemetry.jsonValue, hkey, htype]
      · intro Doc J d; simp [Telemetry.serializeKeyval, hkey, htype]
    | TYPE_UINT =>
      refine ⟨k, .uinteger t.m_value.asUinteger, rfl, ?_, ?_⟩
      · simp [Telemetry.field, Telemetry.jsonValue, hkey, htype]
      · intro Doc J d; simp [Telemetry.serializeKeyval, hkey, htype]
    | TYPE_INT =>
      refine ⟨k, .integer t.m_value.asInteger, rfl, ?_, ?_⟩
      · simp [Telemetry.field, Telemetry.jsonValue, hkey, htype]
      · intro Doc J d; simp [Telemetry.serializeKeyval, hkey, htype]
    | TYPE_REAL =>
      refine ⟨k, .real t.m_value.asReal, rfl, ?_, ?_⟩
      · simp [Telemetry.field, Telemetry.jsonValue, hkey, htype]
      · intro Doc J d; simp [Telemetry.serializeKeyval, hkey, htype]
    | TYPE_STR =>
      refine ⟨k, .str t.m_value.asStr, rfl, ?_, ?_⟩
      · simp [Telemetry.field, Telemetry.jsonValue, hkey, htype]
      · intro Doc J d; simp [Telemetry.serializeKeyval, hkey, htype]

/-- A member with a new key takes a free slot at the end of the object. -/
theorem RefDoc.setMember_fresh (d : RefDoc) (ms : List (String × JsonValue)) (key : String)
    (value : JsonValue) (hroot : d.root = .object ms ∨ (d.root = .null ∧ ms = []))
    (hfresh : ∀ p ∈ ms, p.1 ≠ key) (hroom : d.used < d.capacity) :
    RefDoc.setMember d key value
      = (true, { d with used := d.used + 1, root := .object (ms ++ [(key, value)]) }) := by
  unfold RefDoc.setMember
  rcases hroot with hr | ⟨hr, rfl⟩
  · rw [hr]
    have hany : ms.any (fun p => decide (p.1 = key)) = false := by
      rw [List.any_eq_false]
      intro p hp
      simpa using hfresh p hp
    simp [hany, hroom]
  · rw [hr]
    simp [hroom]

/-- The loop of the batched send on the reference library: records that are valid, with
keys not yet in the object and different from each other, are appended in order. -/
theorem serializeRecords_ref (fmt : CFloat → String) (data : Nat → Telemetry) :
    ∀ (n i : Nat) (d : RefDoc) (ms : List (String × JsonValue)),
      (d.root = .object ms ∨ (d.root = .null ∧ ms = [])) →
      d.used + n ≤ d.capacity →
      (∀ j, i ≤ j → j < i + n → (data j).valid) →
      (∀ j, i ≤ j → j < i + n → ∀ p ∈ ms, some p.1 ≠ (data j).m_key) →
      (∀ j j', i ≤ j → j < j' → j' < i + n → (data j).m_key ≠ (data j').m_key) →
      ∃ d', serializeRecords (refJson fmt) data n i d = (true, d') ∧
        d'.capacity = d.capacity ∧ d'.used = d.used + n ∧
        (0 < n → d'.root
          = .object (ms ++ (List.range' i n).filterMap (fun j => (data j).field))) ∧
        (n = 0 → d' = d) := by
  intro n
  induction n with
  | zero =>
    intro i d ms _ _ _ _ _
    exact ⟨d, rfl, rfl, rfl, fun h => absurd h (Nat.lt_irrefl 0), fun _ => rfl⟩
  | succ n ih =>
    intro i d ms hroot hroom hvalid hfresh hdist
    obtain ⟨k, v, hkey, hfield, hser⟩ :=
      Telemetry.field_of_valid (data i) (hvalid i (Nat.le_refl i) (by omega))
    have hfr : ∀ p ∈ ms, p.1 ≠ k := by
      intro p hp hpk
      apply hfresh i (Nat.le_refl i) (by omega) p hp
      rw [hkey, hpk]
    have hset := RefDoc.setMember_fresh d ms k v hroot hfr (by omega)
    have hstep : (data i).serializeKeyval (refJson fmt) d
        = (true, { d with used := d.used + 1, root := .object (ms ++ [(k, v)]) }) := by
      rw [hser (refJson fmt) d]
      show (true, (RefDoc.setMember d k v).2) = _
      rw [hset]
    obtain ⟨d', hrec, hcap, hused, hpos, hzero⟩ :=
      ih (i + 1) { d with used := d.used + 1, root := .object (ms ++ [(k, v)]) }
        (ms ++ [(k, v)]) (Or.inl rfl) (by show d.used + 1 + n ≤ d.capacity; omega)
        (fun j h1 h2 => hvalid j (by omega) (by omega))
        (fun j h1 h2 p hp => by
          rcases List.mem_append.mp hp with hp | hp
          · exact hfresh j (by omega) (by omega) p hp
          · rw [List.mem_singleton.mp hp]
            show some k ≠ (data j).m_key
            rw [← hkey]
            exact hdist i j (Nat.le_refl i) (by omega) (by omega))
        (fun j j' h1 h2 h3 => hdist j j' (by omega) h2 (by omega))
    refine ⟨d', ?_, hcap, ?_, ?_, ?_⟩
    · rw [serializeRecords, hstep]
      exact hrec
    · rw [hused]; show d.used + 1 + n = d.used + (n + 1); omega
    · intro _
      have hl : (List.range' i (n + 1)).filterMap (fun j => (data j).field)
          = (k, v) :: (List.range' (i + 1) n).filterMap (fun j => (data j).field) := by
        rw [List.range'_succ, List.filterMap_cons, hfield]
      rw [hl]
      rcases Nat.eq_zero_or_pos n with hn | hn
      · rw [hzero hn]
        subst hn
        simp
      · rw [hpos hn]
        simp
    · intro hn; omega

/-- The loop of the batched send stops with `false` at a record whose serialization
returns `false` after the records before it returned `true`. -/
theorem serializeRecords_false_of_fail {Doc : Type} (J : JsonLibrary Doc)
    (data : Nat → Telemetry) :
    ∀ (n i : Nat) (d : Doc),
      (∃ m, m < n ∧ ∃ d', serializeRecords J data m i d = (true, d') ∧
        ((data (i + m)).serializeKeyval J d').1 = false) →
      (serializeRecords J data n i d).1 = false := by
  intro n
  induction n with
  | zero =>
    intro i d h
    obtain ⟨m, hm, _⟩ := h
    exact absurd hm (Nat.not_lt_zero m)
  | succ n ih =>
    intro i d h
    obtain ⟨m, hm, d', hpre, hfail⟩ := h
    rw [serializeRecords]
    cases m with
    | zero =>
      rw [serializeRecords] at hpre
      have hd : d = d' := (Prod.mk.inj hpre).2
      subst hd
      rcases hstep : (data i).serializeKeyval J d with ⟨b, d1⟩
      rw [Nat.add_zero, hstep] at hfail
      have hb : b = false := hfail
      subst hb
      rfl
    | succ m =>
      rw [serializeRecords] at hpre
      rcases hstep : (data i).serializeKeyval J d with ⟨b, d1⟩
      rw [hstep] at hpre
      cases b with
      | false => rfl
      | true =>
        apply ih (i + 1) d1
        refine ⟨m, by omega, d', hpre, ?_⟩
        rw [show i + 1 + m = i + (m + 1) by omega]
        exact hfail

/-- The fields of valid records: as many as records, the field of record `i` at place
`i`. -/
theorem recordFields_of_valid (data : Nat → Telemetry) (n : Nat)
    (hvalid : ∀ i, i < n → (data i).valid) :
    (recordFields data n).length = n ∧
      ∀ i, i < n → (recordFields data n).get? i = (data i).field := by
  have hsome : ∀ i ∈ List.range n, (data i).field
      = (some ∘ fun j => ((data j).field).getD ("", JsonValue.str none)) i := by
    intro i hi
    obtain ⟨k, v, _, hf, _⟩ := Telemetry.field_of_valid (data i) (hvalid i (List.mem_range.mp hi))
    rw [Function.comp_apply, hf]
    rfl
  have heq : recordFields data n
      = (List.range n).map (fun j => ((data j).field).getD ("", JsonValue.str none)) := by
    unfold recordFields
    rw [List.filterMap_congr hsome, List.filterMap_eq_map]
  constructor
  · rw [heq, List.length_map, List.length_range]
  · intro i hi
    rw [heq, List.get?_eq_getElem?, List.getElem?_map, List.getElem?_range hi]
    exact (hsome i (List.mem_range.mpr hi)).symm

/-- C5, as the code has it. For every `N` from 1 to `TB_FIELDS_AMT` and every array of `N`
valid records (each with a key and a value) whose keys differ from each other, the batched
send (`sendDataArray`), on the reference JSON library, builds one JSON object with exactly
`N` fields, the field of record `i` at place `i`, and the body of a request it sends is the
text of that object. And for every JSON library: if the `serializeKeyval` of one record
returns `false`, after the records before it returned `true`, the call returns `false` and
hands nothing to the transport. -/
theorem C5_batch_fields_in_order {Doc : Type} (J : JsonLibrary Doc) (fmt : CFloat → String)
    (transport : Transport) (h : ThingsBoardHttpSized) (s : ThingsBoardHttpsSized)
    (data : Nat → Telemetry) (N : Nat) (telemetry : Bool) (hN : N ≤ TB_FIELDS_AMT) :
    (1 ≤ N → (∀ i, i < N → (data i).valid) →
      (∀ i j, i < j → j < N → (data i).m_key ≠ (data j).m_key) →
      arrayDoc (refJson fmt) data N
        = (true, { capacity := TB_FIELDS_AMT, used := N,
                   root := .object (recordFields data N) }) ∧
      (recordFields data N).length = N ∧
      (∀ i, i < N → (recordFields data N).get? i = (data i).field) ∧
      (∀ r ∈ (h.sendDataArray (refJson fmt) transport data N telemetry).sent,
        r.body = RefDoc.render fmt { capacity := TB_FIELDS_AMT, used := N,
                                     root := .object (recordFields data N) }) ∧
      (∀ r ∈ (s.sendDataArray (refJson fmt) transport data N telemetry).sent,
        r.body = RefDoc.render fmt { capacity := TB_FIELDS_AMT, used := N,
                                     root := .object (recordFields data N) })) ∧
    ((∃ i, i < N ∧ ∃ d,
        serializeRecords J data i 0 (J.toVariant (JSON_OBJECT_SIZE TB_FIELDS_AMT)) = (true, d) ∧
        ((data i).serializeKeyval J d).1 = false) →
      ((h.sendDataArray J transport data N telemetry).ret = false ∧
        (h.sendDataArray J transport data N telemetry).sent = []) ∧
      ((s.sendDataArray J transport data N telemetry).ret = false ∧
        (s.sendDataArray J transport data N telemetry).sent = [])) := by
  constructor
  · intro hpos hvalid hdist
    obtain ⟨d', hrec, hcap, hused, hroot, _⟩ :=
      serializeRecords_ref fmt data N 0
        { capacity := JSON_OBJECT_SIZE TB_FIELDS_AMT, used := 0, root := .null } []
        (Or.inr ⟨rfl, rfl⟩) (by show 0 + N ≤ TB_FIELDS_AMT; omega)
        (fun j _ hj => hvalid j (by omega))
        (fun j _ _ p hp => absurd hp (List.not_mem_nil p))
        (fun j j' _ hlt hj' => hdist j j' hlt (by omega))
    have hd' : d' = ⟨TB_FIELDS_AMT, N, .object (recordFields data N)⟩ := by
      have hr := hroot hpos
      rw [List.nil_append, ← List.range_eq_range'] at hr
      obtain ⟨c, u, r⟩ := d'
      have h1 : c = TB_FIELDS_AMT := hcap
      have h2 : u = 0 + N := hused
      have h3 : r = .object (recordFields data N) := hr
      rw [h1, h2, h3, Nat.zero_add]
    have hdoc : arrayDoc (refJson fmt) data N
        = (true, { capacity := TB_FIELDS_AMT, used := N,
                   root := .object (recordFields data N) }) := by
      rw [← hd']
      exact hrec
    obtain ⟨hlen, hget⟩ := recordFields_of_valid data N hvalid
    refine ⟨hdoc, hlen, hget, ?_, ?_⟩
    · intro r hr
      have hb := (http_array_body (refJson fmt) transport h data N telemetry r hr)
      rw [hdoc] at hb
      exact hb
    · intro r hr
      have hb := (https_array_body (refJson fmt) transport s data N telemetry r hr)
      rw [hdoc] at hb
      exact hb
  · intro hfail
    obtain ⟨i, hi, d, hpre, hf⟩ := hfail
    have hflag : (arrayDoc J data N).1 = false := by
      unfold arrayDoc
      apply serializeRecords_false_of_fail J data N 0
      refine ⟨i, hi, d, hpre, ?_⟩
      rw [Nat.zero_add]
      exact hf
    constructor
    · rcases h.sendDataArray_local_or_transport J transport data N telemetry with
        ⟨_, hr⟩ | ⟨_, ht, _⟩
      · exact hr
      · rw [hflag] at ht; cases ht
    · rcases s.sendDataArray_local_or_transport_tls J transport data N telemetry with
        ⟨_, hr⟩ | ⟨_, ht, _⟩
      · exact hr
      · rw [hflag] at ht; cases ht

/-- C5 at concrete inputs: the batch `a = 1`, `b = true` on the reference library, and, for
the failure, the batch `a = 1`, anonymous `5` on the library whose writes all fail. -/
theorem C5_batch_fields_in_order_witness :
    (arrayDoc (refJson noFloat) exampleBatch 2
        = (true, { capacity := TB_FIELDS_AMT, used := 2,
                   root := .object [("a", .integer 1), ("b", .boolean true)] }) ∧
      (exampleHttp.sendDataArray (refJson noFloat) always200 exampleBatch 2 true).sent.map
          (fun r => r.body) = ["\x7b\"a\":1,\"b\":true\x7d"]) ∧
    ((exampleHttp.sendDataArray unboundJson always200 anonymousLastBatch 2 true).ret = false ∧
        (exampleHttp.sendDataArray unboundJson always200 anonymousLastBatch 2 true).sent = []) ∧
    ((exampleHttps.sendDataArray unboundJson always200 anonymousLastBatch 2 true).ret = false ∧
        (exampleHttps.sendDataArray unboundJson always200 anonymousLastBatch 2 true).sent = []) :=
  ⟨⟨((C5_batch_fields_in_order unboundJson noFloat always200 exampleHttp exampleHttps
        exampleBatch 2 true (by decide)).1 (by decide) (by decide)
        (fun i j hij hj => by
          have hi : i = 0 := by omega
          have hj1 : j = 1 := by omega
          subst hi; subst hj1; decide)).1.trans (by decide),
     by decide⟩,
   ((C5_batch_fields_in_order unboundJson noFloat always200 exampleHttp exampleHttps
        anonymousLastBatch 2 true (by decide)).2 ⟨1, by decide, (), by decide, by decide⟩).1,
   ((C5_batch_fields_in_order unboundJson noFloat always200 exampleHttp exampleHttps
        anonymousLastBatch 2 true (by decide)).2 ⟨1, by decide, (), by decide, by decide⟩).2⟩

/-- C5 as stated fails for two arrays of valid records on the reference library: in the batch
`a = 1`, `a = 2` the second record replaces the value of the first, and the object that is
sent has one field, not two; and the batch of no records builds no object at all, the text
that is sent is `null`. -/
theorem C5_duplicate_key_or_empty_batch :
    (2 ≤ TB_FIELDS_AMT ∧ (duplicateKeyBatch 0).valid ∧ (duplicateKeyBatch 1).valid ∧
      arrayDoc (refJson noFloat) duplicateKeyBatch 2
        = (true, { capacity := TB_FIELDS_AMT, used := 1,
                   root := .object [("a", .integer 2)] }) ∧
      exampleHttp.sendDataArray (refJson noFloat) always200 duplicateKeyBatch 2 true
        = { ret := true, logged := [],
            sent := [{ socket := some ⟨1⟩, method := HttpMethod.HTTP_POST,
                       url := "http://demo.thingsboard.io:8080/api/v1/TOKEN/telemetry",
                       headers := [("Content-Type", "application/json")],
                       body := "\x7b\"a\":2\x7d" }] }) ∧
    (0 ≤ TB_FIELDS_AMT ∧
      arrayDoc (refJson noFloat) (arrayOf []) 0
        = (true, { capacity := TB_FIELDS_AMT, used := 0, root := .null }) ∧
      exampleHttp.sendDataArray (refJson noFloat) always200 (arrayOf []) 0 true
        = { ret := true, logged := [],
            sent := [{ socket := some ⟨1⟩, method := HttpMethod.HTTP_POST,
                       url := "http://demo.thingsboard.io:8080/api/v1/TOKEN/telemetry",
                       headers := [("Content-Type", "application/json")],
                       body := "null" }] }) := by
  decide

/-! ## C6 : one record as a JSON object -/

/-- A record with a key and a value, written into the fresh one-member document of the
reference library, gives the object with that one field. -/
theorem keyvalDoc_ref_of_valid (fmt : CFloat → String) (t : Telemetry) (hv : t.valid) :
    ∃ k v, t.m_key = some k ∧ t.jsonValue = some v ∧
      keyvalDoc (refJson fmt) t = (true, { capacity := 1, used := 1, root := .object [(k, v)] }) ∧
      (refJson fmt).render (keyvalDoc (refJson fmt) t).2
        = "\x7b" ++ (RefDoc.quote k ++ ":" ++ RefDoc.renderValue fmt v) ++ "\x7d" := by
  obtain ⟨k, v, hk, hf, hser⟩ := Telemetry.field_of_valid t hv
  have hjv : t.jsonValue = some v := by
    unfold Telemetry.field at hf
    rw [hk] at hf
    cases hj : t.jsonValue with
    | none => rw [hj] at hf; cases hf
    | some w =>
      rw [hj] at hf
      have hw : (k, w) = (k, v) := Option.some.inj hf
      rw [(Prod.mk.inj hw).2]
  have hdoc : keyvalDoc (refJson fmt) t
      = (true, { capacity := 1, used := 1, root := .object [(k, v)] }) := by
    unfold keyvalDoc
    rw [hser (refJson fmt) _]
    rfl
  refine ⟨k, v, hk, hjv, hdoc, ?_⟩
  rw [hdoc]
  rfl

/-- The constructors for `bool`, `int` in its range, `float` and strings keep the value:
the record holds the key and the value it was built from, under the tag of the type. -/
theorem Telemetry.constructor_values (K : String) (b : Bool) (i : Int) (f : CFloat)
    (str : Option String) (hlo : -2147483648 ≤ i) (hhi : i < 2147483648) :
    ((Telemetry.ofBool (some K) b).valid ∧
      (Telemetry.ofBool (some K) b).field = some (K, .boolean b)) ∧
    ((Telemetry.ofIntegral (some K) i).valid ∧
      (Telemetry.ofIntegral (some K) i).field = some (K, .integer i)) ∧
    ((Telemetry.ofFloat (some K) f).valid ∧
      (Telemetry.ofFloat (some K) f).field = some (K, .real f)) ∧
    ((Telemetry.ofStr (some K) str).valid ∧
      (Telemetry.ofStr (some K) str).field = some (K, .str str)) := by
  have hi : toInt32 i = i := by unfold toInt32; omega
  refine ⟨⟨⟨?_, ?_⟩, rfl⟩, ⟨⟨?_, ?_⟩, ?_⟩, ⟨⟨?_, ?_⟩, rfl⟩, ⟨⟨?_, ?_⟩, rfl⟩⟩
  all_goals first
    | exact Option.noConfusion
    | exact dataType.noConfusion
    | (show some (K, JsonValue.integer (toInt32 i)) = _; rw [hi])

/-- The template constructor on an unsigned 32 bit value of `2 ^ 31` or more: the record
holds the value less `2 ^ 32`, a negative number, under `TYPE_INT`. -/
theorem Telemetry.ofIntegral_unsigned_wraps (K : String) (v : Int) (hlo : 2147483648 ≤ v)
    (hhi : v < 4294967296) :
    (Telemetry.ofIntegral (some K) v).m_type = TYPE_INT ∧
      (Telemetry.ofIntegral (some K) v).field = some (K, .integer (v - 4294967296)) ∧
      v - 4294967296 ≠ v := by
  have hw : toInt32 v = v - 4294967296 := by unfold toInt32; omega
  refine ⟨rfl, ?_, by omega⟩
  show some (K, JsonValue.integer (toInt32 v)) = _
  rw [hw]

/-- C6 at its failing input. The constructor `Telemetry(K, v)` with an unsigned 32 bit value
is the template constructor: it stores the value converted to `int` under `TYPE_INT`. For
`v = 4294967295` the record holds `-1` and the object is `{"k":-1}`, while `setValue` with
the same unsigned value keeps it, under `TYPE_UINT`. The example of the claim, `temp = 25`,
gives `{"temp":25}`. -/
theorem C6_unsigned_value_wraps :
    (Telemetry.ofIntegral (some "k") 4294967295
        = { m_type := dataType.TYPE_INT, m_key := some "k", m_value := data.integer (-1) } ∧
      keyvalDoc (refJson noFloat) (Telemetry.ofIntegral (some "k") 4294967295)
        = (true, { capacity := 1, used := 1, root := .object [("k", .integer (-1))] }) ∧
      (refJson noFloat).render
          (keyvalDoc (refJson noFloat) (Telemetry.ofIntegral (some "k") 4294967295)).2
        = "\x7b\"k\":-1\x7d") ∧
    (keyvalDoc (refJson noFloat) ((Telemetry.ofIntegral (some "k") 0).setValueUInt 4294967295)
        = (true, { capacity := 1, used := 1,
                   root := .object [("k", .uinteger 4294967295)] }) ∧
      (refJson noFloat).render (keyvalDoc (refJson noFloat)
          ((Telemetry.ofIntegral (some "k") 0).setValueUInt 4294967295)).2
        = "\x7b\"k\":4294967295\x7d") ∧
    (refJson noFloat).render
        (keyvalDoc (refJson noFloat) (Telemetry.ofIntegral (some "temp") 25)).2
      = "\x7b\"temp\":25\x7d" := by
  decide

/-! ## C8 : the result of `serializeKeyval` -/

/-- A record with a key: `serializeKeyval` returns `true` whatever the member write of the
library returns, and the container is the one that write leaves. -/
theorem Telemetry.serializeKeyval_keyed {Doc : Type} (J : JsonLibrary Doc) (t : Telemetry)
    (jsonObj : Doc) (key : String) (hk : t.m_key = some key) :
    (t.serializeKeyval J jsonObj).1 = true ∧
      (t.m_type = TYPE_NONE ∨ ∃ v, t.jsonValue = some v ∧
        (t.serializeKeyval J jsonObj).2 = (J.setMember jsonObj key v).2) := by
  unfold Telemetry.serializeKeyval Telemetry.jsonValue
  rw [hk]
  cases t.m_type
  · exact ⟨rfl, Or.inl rfl⟩
  all_goals exact ⟨rfl, Or.inr ⟨_, rfl, rfl⟩⟩

/-- A record without a key: `serializeKeyval` returns what the scalar write of the library
returns. -/
theorem Telemetry.serializeKeyval_anonymous {Doc : Type} (J : JsonLibrary Doc) (t : Telemetry)
    (jsonObj : Doc) (hk : t.m_key = none) :
    t.m_type = TYPE_NONE ∨ ∃ v, t.jsonValue = some v ∧
      t.serializeKeyval J jsonObj = J.set jsonObj v := by
  unfold Telemetry.serializeKeyval Telemetry.jsonValue
  rw [hk]
  cases t.m_type
  · exact Or.inl rfl
  all_goals exact Or.inr ⟨_, rfl, rfl⟩

/-- A record of type none writes nothing and returns `true`. -/
theorem Telemetry.serializeKeyval_none {Doc : Type} (J : JsonLibrary Doc) (t : Telemetry)
    (jsonObj : Doc) (ht : t.m_type = TYPE_NONE) :
    t.serializeKeyval J jsonObj = (true, jsonObj) := by
  unfold Telemetry.serializeKeyval
  rw [ht]
  cases t.m_key <;> rfl

/-- C8 at its failing input. The record `a = 1` is written into a container that holds the
scalar 5 (the state of the batch after a record without a key): the member write of the
reference library fails and leaves the container as it was, and `serializeKeyval` returns
`true`. The batched send of the two records returns `true` and has sent the text `5`. The
same on the library whose writes all fail, where a record without a key does return
`false`. -/
theorem C8_keyed_write_failure_ignored :
    ((refJson noFloat).setMember { capacity := 8, used := 0, root := .scalar (.integer 5) }
        "a" (.integer 1)
      = (false, { capacity := 8, used := 0, root := .scalar (.integer 5) }) ∧
      (Telemetry.ofIntegral (some "a") 1).serializeKeyval (refJson noFloat)
          { capacity := 8, used := 0, root := .scalar (.integer 5) }
        = (true, { capacity := 8, used := 0, root := .scalar (.integer 5) })) ∧
    exampleHttp.sendTelemetry (refJson noFloat) always200 anonymousFirstBatch 2
      = { ret := true, logged := [],
          sent := [{ socket := some ⟨1⟩, method := HttpMethod.HTTP_POST,
                     url := "http://demo.thingsboard.io:8080/api/v1/TOKEN/telemetry",
                     headers := [("Content-Type", "application/json")],
                     body := "5" }] } ∧
    (unboundJson.setMember () "a" (.integer 1) = (false, ()) ∧
      (Telemetry.ofIntegral (some "a") 1).serializeKeyval unboundJson () = (true, ()) ∧
      (Telemetry.empty.setValueInt 5).serializeKeyval unboundJson () = (false, ())) := by
  decide

end Theorems
